import Mathlib

/-!
Shallow embedding of the competitor-positioning and scoring pipeline of the
`authority-index` repository (module `competitor-analyzer`, later revision).

Modelling conventions:
* JavaScript numbers are modelled as exact rationals (`ℚ`).  Every IEEE-754
  double is a rational, and all the constants appearing in the source are
  exactly representable, so the model is the exact-arithmetic idealisation of
  the float program.  `Math.round x = ⌊x + 1/2⌋`, which is Mathlib's `round`.
* `Math.cos` / `Math.sin` / `Math.PI` return doubles, i.e. rationals; they are
  taken as parameters (`cosF sinF : ℚ → ℚ`, `piQ : ℚ`), bounded by 1 where a
  theorem needs it.  `Math.sqrt d < t` (with `t > 0`) is embedded as the
  equivalent `d < t ^ 2`.
* JavaScript truthiness on numeric fields (`if (x)`, `x || d`) is modelled
  explicitly: a missing field is `none`, and `0` is falsy.
* Possibly-throwing asynchronous collaborators are modelled as functions into
  `Except String α`; a `catch` block is a `match` on the `Except`.
-/

namespace AuthorityIndex

/-- JS `x || d` for a possibly-missing numeric field: `undefined`, `NaN`
and `0` are falsy and give the default. -/
def jsNum (x : Option ℚ) (d : ℚ) : ℚ :=
  match x with
  | some v => if v = 0 then d else v
  | none => d

/-- JS truthiness of a possibly-missing numeric field. -/
def numTruthy (x : Option ℚ) : Bool :=
  match x with
  | some v => v ≠ 0
  | none => false

/-- JS truthiness of a possibly-missing string field (empty string is falsy). -/
def strTruthy (x : Option String) : Bool :=
  match x with
  | some s => s ≠ ""
  | none => false

/-- JS `x || d` on a possibly-missing string field. -/
def jsStr (x : Option String) (d : String) : String :=
  match x with
  | some s => if s = "" then d else s
  | none => d

/-!  ## §4.1 Score curving (`applyCurve`, part_000 lines 1303–1323)  -/

/-- `applyCurve(score)`: normalise to `[0,1]`, apply the three-band piecewise
curve, then `Math.round` back to `0..100` and clamp.  The result of the JS
function is always an integer, so the codomain is `ℤ`. -/
def applyCurve (score : ℚ) : ℤ :=
  let normalized := score / 100
  let curved : ℚ :=
    if normalized < 2/5 then normalized * (9/10)
    else if normalized > 7/10 then 7/10 + (normalized - 7/10) * (23/20)
    else 3/10 + (normalized - 2/5) * (13/10)
  max 0 (min 100 (round (curved * 100)))

/-- `mapScoreToLabel` (part_000 lines 1330–1335). -/
def mapScoreToLabel (score : ℚ) : String :=
  if score ≥ 80 then "HIGH"
  else if score ≥ 60 then "MEDIUM"
  else if score ≥ 40 then "LOW"
  else "POOR"

/-!  ## §4.2 Market-position classifier (`determineMarketPosition`,
part_000 lines 1346–1421)  -/

/-- A peer entity as read by `determineMarketPosition`: only the two score
fields are consulted, each through `c.expertiseScore || 50`. -/
structure Peer where
  expertiseScore : Option ℚ := none
  authorityScore : Option ℚ := none
deriving DecidableEq

/-- The `industryAdjustments` table (expertise delta, authority delta). -/
def industryAdjustment (industry : String) : Option (ℤ × ℤ) :=
  if industry = "Healthcare" then some (5, 0)
  else if industry = "Finance" then some (3, 2)
  else if industry = "Legal" then some (5, 0)
  else if industry = "Technology" then some (0, 5)
  else if industry = "Construction" then some (0, -5)
  else if industry = "Real Estate" then some (-2, 3)
  else if industry = "Environmental" then some (2, -3)
  else none

/-- Base thresholds 70/65 plus the industry adjustment when the industry is
recognised (the JS guard `industry && industryAdjustments[industry]`; the
empty string is not a key of the table, so the lookup alone decides). -/
def baseThresholds (industry : String) : ℤ × ℤ :=
  match industryAdjustment industry with
  | some (de, da) => (70 + de, 65 + da)
  | none => (70, 65)

/-- Ascending numeric sort, as `scores.sort((a, b) => a - b)`. -/
def sortAsc (l : List ℚ) : List ℚ := l.mergeSort (· ≤ ·)

/-- `Math.floor(scores.length * 0.7)`: the product of a small integer with
the double `0.7` rounds to `n * 7/10`, whose floor is `7n / 10` in `ℕ`. -/
def percentileIndex (n : ℕ) : ℕ := (7 * n) / 10

/-- The 70th-percentile pick used by the classifier: the element of the
ascending-sorted score list at linear index `⌊n * 0.7⌋` (always in range for
a non-empty list, so the `getD` default is never consulted). -/
def percentile70 (scores : List ℚ) : ℚ :=
  (sortAsc scores).getD (percentileIndex scores.length) 0

/-- The percentile-blended thresholds computed when `competitors.length >= 3`
(part_000 lines 1372–1388), before the minimum-separation step. -/
def blendedThresholds (competitors : List Peer) (industry : String) : ℤ × ℤ :=
  let baseE := (baseThresholds industry).1
  let baseA := (baseThresholds industry).2
  let expertiseScores := competitors.map (fun c => jsNum c.expertiseScore 50)
  let authorityScores := competitors.map (fun c => jsNum c.authorityScore 50)
  let expertisePercentile := percentile70 expertiseScores
  let authorityPercentile := percentile70 authorityScores
  (round (expertisePercentile * (7/10) + (baseE : ℚ) * (3/10)),
   round (authorityPercentile * (7/10) + (baseA : ℚ) * (3/10)))

/-- The minimum-separation push-apart step (part_000 lines 1390–1403):
if the two thresholds are closer than 5, the higher one gains
`Math.ceil(5/2) = 3` and the lower one loses `Math.floor(5/2) = 2`. -/
def separateThresholds (t : ℤ × ℤ) : ℤ × ℤ :=
  if |t.1 - t.2| < 5 then
    if t.1 > t.2 then (t.1 + 3, t.2 - 2) else (t.1 - 2, t.2 + 3)
  else t

/-- The thresholds actually used for classification: blended and pushed apart
when there are at least 3 peers, the plain base+industry thresholds
otherwise. -/
def finalThresholds (competitors : List Peer) (industry : String) : ℤ × ℤ :=
  if 3 ≤ competitors.length then
    separateThresholds (blendedThresholds competitors industry)
  else baseThresholds industry

/-- `determineMarketPosition(expertiseScore, authorityScore, competitors = [],
industry = '')`. -/
def determineMarketPosition (expertiseScore authorityScore : ℚ)
    (competitors : List Peer := []) (industry : String := "") : String :=
  let expertiseThreshold := (finalThresholds competitors industry).1
  let authorityThreshold := (finalThresholds competitors industry).2
  let curvedExpertise := applyCurve expertiseScore
  let curvedAuthority := applyCurve authorityScore
  if curvedExpertise ≥ expertiseThreshold ∧ curvedAuthority ≥ authorityThreshold then
    "VERIFIED EXPERT"
  else if curvedExpertise ≥ expertiseThreshold ∧ curvedAuthority < authorityThreshold then
    "HIDDEN EXPERT"
  else if curvedExpertise < expertiseThreshold ∧ curvedAuthority ≥ authorityThreshold then
    "VISIBILITY WITHOUT SUBSTANCE"
  else "LOW PROFILE"

/-!  ## §4.6 Quadrant layout engine (`calculateCompetitorPositions`,
part_000 lines 1719–1849)

Entities reaching the layout engine carry numeric scores (the data-model
invariant); `Math.cos`, `Math.sin` and `Math.PI` are rational-valued
parameters `cosF`, `sinF`, `piQ`.  -/

/-- A `chartPosition` record `{x, y, radius}`. -/
structure ChartPos where
  x : ℚ
  y : ℚ
  radius : ℚ
deriving DecidableEq

/-- An entry of the `occupiedSpaces` list `{x, y, radius}`. -/
structure Space where
  x : ℚ
  y : ℚ
  radius : ℚ
deriving DecidableEq

/-- The view of an entity used by the layout engine.  `placedCleanly` is a
ghost observation recording the final value of the placement loop's
`isOverlapping` flag (`some true` means the overlap search exited cleanly
within the 50 attempts); nothing in the algorithm reads it. -/
structure CEntity where
  authorityScore : ℚ
  expertiseScore : ℚ
  position : Option String := none
  isBoss : Bool := false
  chartPosition : Option ChartPos := none
  placedCleanly : Option Bool := none
deriving DecidableEq

/-- The four keys of `competitorsByQuadrant`. -/
def quadrantNames : List String :=
  ["VERIFIED EXPERT", "HIDDEN EXPERT", "VISIBILITY WITHOUT SUBSTANCE", "LOW PROFILE"]

/-- Number of members of quadrant `q` (entities with that `position`). -/
def positionCount (es : List CEntity) (q : String) : ℕ :=
  (es.filter (fun e => decide (e.position = some q))).length

/-- The dispersion nudge applied to the member of quadrant `q` with in-group
index `k` (group size `size`), part_000 lines 1755–1774.  The group's centre
of mass is computed by the source but never used, so it is omitted here.
Each `if` mirrors a JS truthiness guard (`0` is falsy); note the clamp guard
re-tests the already-updated value. -/
def disperseEntity (cosF sinF : ℚ → ℚ) (piQ : ℚ) (q : String) (size k : ℕ)
    (e : CEntity) : CEntity :=
  if k = 0 then e
  else
    let angle : ℚ := ((k : ℚ) / (size : ℚ)) * piQ
    let distance : ℚ := 5 + (k : ℚ) * 3
    let dirX : ℚ := if q = "VERIFIED EXPERT" ∨ q = "VISIBILITY WITHOUT SUBSTANCE" then 1 else -1
    let dirY : ℚ := if q = "VERIFIED EXPERT" ∨ q = "HIDDEN EXPERT" then 1 else -1
    let a1 : ℚ :=
      if e.authorityScore ≠ 0 then e.authorityScore + dirX * distance * cosF angle
      else e.authorityScore
    let e1 : ℚ :=
      if e.expertiseScore ≠ 0 then e.expertiseScore + dirY * distance * sinF angle
      else e.expertiseScore
    let a2 : ℚ := if a1 ≠ 0 then max 30 (min 95 a1) else a1
    let e2 : ℚ := if e1 ≠ 0 then max 30 (min 95 e1) else e1
    { e with authorityScore := a2, expertiseScore := e2 }

/-- The effect of the dispersion pre-pass on the single entity `je.2` sitting
at overall index `je.1`: the entity is nudged iff its `position` is one of
the four quadrant keys, its group has more than one member, and it is not the
group's first member (its in-group index is the number of earlier members of
the same quadrant). -/
def disperseStep (cosF sinF : ℚ → ℚ) (piQ : ℚ) (es : List CEntity)
    (je : ℕ × CEntity) : CEntity :=
  match je.2.position with
  | some q =>
    if q ∈ quadrantNames then
      let size := positionCount es q
      if size ≤ 1 then je.2
      else disperseEntity cosF sinF piQ q size (positionCount (es.take je.1) q) je.2
    else je.2
  | none => je.2

/-- The dispersion pre-pass (part_000 lines 1726–1775): group entities by
quadrant label; in every group with more than one member, nudge each member
after the first.  In-place mutation of the JS objects is modelled by
returning the updated entity list. -/
def dispersePass (cosF sinF : ℚ → ℚ) (piQ : ℚ) (es : List CEntity) : List CEntity :=
  es.enum.map (disperseStep cosF sinF piQ es)

/-- Base circle radius (40 px). -/
def circleRadius : ℚ := 40

/-- Minimum padding between circles (15 px). -/
def circlePadding : ℚ := 15

/-- Overlap test against the occupied spaces (part_000 lines 1801–1807):
the JS test `sqrt(dx^2 + dy^2) < radius + space.radius + padding` is embedded
in the equivalent squared form (the threshold is positive). -/
def overlapsAny (x y radius : ℚ) : List Space → Bool
  | [] => false
  | s :: rest =>
    if (x - s.x) ^ 2 + (y - s.y) ^ 2 < (radius + s.radius + circlePadding) ^ 2 then true
    else overlapsAny x y radius rest

/-- Border proximity test (part_000 lines 1810–1814). -/
def outsideBorders (dims : ℚ × ℚ) (x y radius : ℚ) : Bool :=
  let borderPadding := radius + 40
  if x < borderPadding ∨ x > dims.1 - borderPadding ∨
     y < borderPadding ∨ y > dims.2 - borderPadding then true
  else false

/-- One pass of the loop body's `isOverlapping` computation. -/
def checkOverlap (spaces : List Space) (dims : ℚ × ℚ) (x y radius : ℚ) : Bool :=
  overlapsAny x y radius spaces || outsideBorders dims x y radius

/-- The spiral displacement for a given attempt number (part_000 lines
1816–1827): `angle = 0.5 * attempts`, `distance = 5 * ceil(attempts / 6)`,
added to the original floored base position and clamped to
`[radius, dim - radius]`. -/
def spiralXY (cosF sinF : ℚ → ℚ) (dims : ℚ × ℚ) (baseX baseY radius : ℚ)
    (attempts : ℕ) : ℚ × ℚ :=
  let angle : ℚ := 1/2 * (attempts : ℚ)
  let distance : ℚ := 5 * (((attempts + 5) / 6 : ℕ) : ℚ)
  let deltaX := cosF angle * distance
  let deltaY := sinF angle * distance
  (max radius (min (dims.1 - radius) (baseX + deltaX)),
   max radius (min (dims.2 - radius) (baseY + deltaY)))

/-- The `while (isOverlapping && attempts < maxAttempts)` search, with
`fuel = 50 - attempts`.  Returns the final `(x, y)` and the negation of the
loop's final `isOverlapping` flag (`true` = clean exit). -/
def searchLoop (cosF sinF : ℚ → ℚ) (spaces : List Space) (dims : ℚ × ℚ)
    (baseX baseY radius : ℚ) : ℕ → ℕ → ℚ → ℚ → ℚ × ℚ × Bool
  | 0, _, x, y => (x, y, false)
  | fuel + 1, attempts, x, y =>
    if checkOverlap spaces dims x y radius then
      let p := spiralXY cosF sinF dims baseX baseY radius attempts
      searchLoop cosF sinF spaces dims baseX baseY radius fuel (attempts + 1) p.1 p.2
    else (x, y, true)

/-- The body of the placement loop for one entity (part_000 lines 1778–1845):
map scores to pixels (`x = authority% * width`, `y` inverted, `Math.floor`ed),
radius 40 (×1.2 for the boss), run the 50-attempt spiral search against the
occupied spaces.  Returns the updated entity together with the space recorded
into `occupiedSpaces`. -/
def placeEntity (cosF sinF : ℚ → ℚ) (dims : ℚ × ℚ) (spaces : List Space)
    (e : CEntity) : CEntity × Space :=
  let xPercent := e.authorityScore / 100
  let yPercent := e.expertiseScore / 100
  let radius : ℚ := if e.isBoss then circleRadius * (6/5) else circleRadius
  let baseX : ℚ := (⌊xPercent * dims.1⌋ : ℤ)
  let baseY : ℚ := (⌊(1 - yPercent) * dims.2⌋ : ℤ)
  let r := searchLoop cosF sinF spaces dims baseX baseY radius 50 0 baseX baseY
  ({ e with chartPosition := some ⟨r.1, r.2.1, radius⟩, placedCleanly := some r.2.2 },
   ⟨r.1, r.2.1, radius⟩)

/-- The placement loop over all entities, threading `occupiedSpaces`. -/
def placeLoop (cosF sinF : ℚ → ℚ) (dims : ℚ × ℚ) :
    List CEntity → List Space → List CEntity
  | [], _ => []
  | e :: rest, spaces =>
    let p := placeEntity cosF sinF dims spaces e
    p.1 :: placeLoop cosF sinF dims rest (spaces ++ [p.2])

/-- `calculateCompetitorPositions(competitors, chartDimensions = {800, 600})`:
dispersion pre-pass followed by the placement loop with an initially empty
`occupiedSpaces`. -/
def calculateCompetitorPositions (cosF sinF : ℚ → ℚ) (piQ : ℚ)
    (competitors : List CEntity) (chartDimensions : ℚ × ℚ := (800, 600)) :
    List CEntity :=
  placeLoop cosF sinF chartDimensions (dispersePass cosF sinF piQ competitors) []

/-!  ### Lemmas about the layout engine  -/

/-- The space occupied by a chart position. -/
def spaceOfChart (c : ChartPos) : Space := ⟨c.x, c.y, c.radius⟩

/-- The spaces of the already-placed entities of a list. -/
def spacesOf (l : List CEntity) : List Space :=
  l.filterMap (fun e => e.chartPosition.map spaceOfChart)

theorem searchLoop_clean (cosF sinF : ℚ → ℚ) (spaces : List Space) (dims : ℚ × ℚ)
    (baseX baseY radius : ℚ) :
    ∀ (fuel attempts : ℕ) (x y : ℚ),
      (searchLoop cosF sinF spaces dims baseX baseY radius fuel attempts x y).2.2 = true →
      checkOverlap spaces dims
        (searchLoop cosF sinF spaces dims baseX baseY radius fuel attempts x y).1
        (searchLoop cosF sinF spaces dims baseX baseY radius fuel attempts x y).2.1
        radius = false := by
  intro fuel
  induction fuel with
  | zero => intro attempts x y h; simp [searchLoop] at h
  | succ n ih =>
    intro attempts x y h
    rw [searchLoop] at h ⊢
    by_cases hc : checkOverlap spaces dims x y radius = true
    · rw [if_pos hc] at h ⊢
      exact ih _ _ _ h
    · rw [if_neg hc] at h ⊢
      exact Bool.not_eq_true _ ▸ hc

theorem overlapsAny_eq_false (x y radius : ℚ) :
    ∀ l : List Space, overlapsAny x y radius l = false →
      ∀ s ∈ l, (radius + s.radius + circlePadding) ^ 2 ≤ (x - s.x) ^ 2 + (y - s.y) ^ 2 := by
  intro l
  induction l with
  | nil => simp
  | cons s rest ih =>
    intro h t ht
    rw [overlapsAny] at h
    split at h
    · exact absurd h (by simp)
    · next hlt =>
      rcases List.mem_cons.mp ht with rfl | hmem
      · exact le_of_not_lt hlt
      · exact ih h t hmem

theorem outsideBorders_eq_false (dims : ℚ × ℚ) (x y radius : ℚ)
    (h : outsideBorders dims x y radius = false) :
    radius + 40 ≤ x ∧ x ≤ dims.1 - (radius + 40) ∧
    radius + 40 ≤ y ∧ y ≤ dims.2 - (radius + 40) := by
  rw [outsideBorders] at h
  split at h
  · exact absurd h (by simp)
  · next hc =>
    push_neg at hc
    exact ⟨hc.1, hc.2.1, hc.2.2.1, hc.2.2.2⟩

/-- Shape of `placeEntity`'s result: the entity is the input with a chart
position and the clean-exit flag attached, the recorded space matches the
chart position, and a clean exit certifies the overlap/border check. -/
theorem placeEntity_spec (cosF sinF : ℚ → ℚ) (dims : ℚ × ℚ) (spaces : List Space)
    (e : CEntity) :
    ∃ (x y : ℚ) (flag : Bool) (radius : ℚ),
      placeEntity cosF sinF dims spaces e =
        ({ e with chartPosition := some ⟨x, y, radius⟩, placedCleanly := some flag },
         ⟨x, y, radius⟩) ∧
      radius = (if e.isBoss then circleRadius * (6/5) else circleRadius) ∧
      (flag = true → checkOverlap spaces dims x y radius = false) := by
  refine ⟨_, _, _, _, rfl, rfl, ?_⟩
  intro hflag
  exact searchLoop_clean cosF sinF spaces dims _ _ _ 50 0 _ _ hflag

/-- Core invariant of the placement loop: every produced entity has a chart
position matching its recorded space, and if its overlap search exited
cleanly then that position passes the overlap/border check against all
spaces occupied before it. -/
theorem placeLoop_get_spec (cosF sinF : ℚ → ℚ) (dims : ℚ × ℚ) :
    ∀ (es : List CEntity) (spaces : List Space) (j : ℕ) (e' : CEntity),
      (placeLoop cosF sinF dims es spaces).get? j = some e' →
      ∃ cp : ChartPos, e'.chartPosition = some cp ∧
        (e'.placedCleanly = some true →
          checkOverlap (spaces ++ spacesOf ((placeLoop cosF sinF dims es spaces).take j))
            dims cp.x cp.y cp.radius = false) := by
  intro es
  induction es with
  | nil => intro spaces j e' h; simp [placeLoop] at h
  | cons e rest ih =>
    intro spaces j e' h
    obtain ⟨x, y, flag, radius, heq, -, hclean⟩ := placeEntity_spec cosF sinF dims spaces e
    rw [placeLoop, heq] at h ⊢
    match j with
    | 0 =>
      obtain rfl : _ = e' := by simpa using h
      refine ⟨⟨x, y, radius⟩, rfl, fun hc => ?_⟩
      have : flag = true := by simpa using hc
      simpa [spacesOf] using hclean this
    | j + 1 =>
      simp only [List.get?] at h
      obtain ⟨cp, hcp, hcl⟩ := ih (spaces ++ [⟨x, y, radius⟩]) j e' h
      refine ⟨cp, hcp, fun hc => ?_⟩
      have := hcl hc
      rw [List.take_succ_cons, spacesOf, List.filterMap_cons]
      simpa [spacesOf, spaceOfChart, List.append_assoc] using this

/-- C2 (amended): every chartPosition assigned by
`calculateCompetitorPositions` **whose overlap search exited cleanly within
the 50 attempts** has its center x in `[radius+40, width-radius-40]` and its
center y in `[radius+40, height-radius-40]`.  (The original claim, quantified
over every placement, fails for best-effort placements accepted after 50
failed attempts; see the counterexample.) -/
theorem claim_C2_layout_bounds (cosF sinF : ℚ → ℚ) (piQ : ℚ) (dims : ℚ × ℚ)
    (competitors : List CEntity) (j : ℕ) (e' : CEntity) (cp : ChartPos)
    (hj : (calculateCompetitorPositions cosF sinF piQ competitors dims).get? j = some e')
    (hclean : e'.placedCleanly = some true)
    (hcp : e'.chartPosition = some cp) :
    cp.radius + 40 ≤ cp.x ∧ cp.x ≤ dims.1 - cp.radius - 40 ∧
    cp.radius + 40 ≤ cp.y ∧ cp.y ≤ dims.2 - cp.radius - 40 := by
  rw [calculateCompetitorPositions] at hj
  obtain ⟨cp', hcp', h⟩ := placeLoop_get_spec cosF sinF dims _ [] j e' hj
  have hcc : cp = cp' := by rw [hcp] at hcp'; exact Option.some_inj.mp hcp'
  subst hcc
  have h2 := h hclean
  simp only [checkOverlap, Bool.or_eq_false_iff] at h2
  obtain ⟨h1, h2x, h3, h4⟩ := outsideBorders_eq_false dims cp.x cp.y cp.radius h2.2
  exact ⟨h1, by linarith, h3, by linarith⟩

set_option maxHeartbeats 1000000 in
/-- Witness for C2 (amended): a lone mid-chart entity is placed cleanly at
(400, 300) with radius 40 on the default 800×600 canvas, and the bounds
hold there. -/
theorem claim_C2_layout_bounds_witness :
    (40 : ℚ) + 40 ≤ 400 ∧ (400 : ℚ) ≤ 800 - 40 - 40 ∧
    (40 : ℚ) + 40 ≤ 300 ∧ (300 : ℚ) ≤ 600 - 40 - 40 := by
  have hget : (calculateCompetitorPositions (fun _ => 0) (fun _ => 0) 0
      [{ authorityScore := 50, expertiseScore := 50 }] (800, 600)).get? 0 =
      some { authorityScore := 50, expertiseScore := 50,
             chartPosition := some ⟨400, 300, 40⟩, placedCleanly := some true } := by
    norm_num [calculateCompetitorPositions, placeLoop, placeEntity, dispersePass,
      disperseStep, searchLoop, spiralXY, checkOverlap, overlapsAny, outsideBorders,
      circleRadius, circlePadding, List.enum]
  have h := claim_C2_layout_bounds (fun _ => 0) (fun _ => 0) 0 (800, 600)
    [{ authorityScore := 50, expertiseScore := 50 }] 0
    { authorityScore := 50, expertiseScore := 50,
      chartPosition := some ⟨400, 300, 40⟩, placedCleanly := some true }
    ⟨400, 300, 40⟩ hget rfl rfl
  simpa using h

set_option maxHeartbeats 1000000 in
/-- Counterexample to C2 as stated: an entity with `authorityScore = 0` maps
to base x = 0; every spiral candidate is clamped to at most 45 < 80, so all
50 attempts fail the border check and the forced best-effort placement has
center x = 40 < radius + 40 = 80, outside the claimed band. -/
theorem claim_C2_counterexample :
    ((calculateCompetitorPositions (fun _ => 0) (fun _ => 0) 0
        [{ authorityScore := 0, expertiseScore := 50 }]).map
      (fun e => e.chartPosition.map (fun c => (c.x, c.radius)))) = [some (40, 40)] ∧
    (40 : ℚ) < 40 + 40 := by
  constructor
  · norm_num [calculateCompetitorPositions, placeLoop, placeEntity, dispersePass,
      disperseStep, searchLoop, spiralXY, checkOverlap, overlapsAny, outsideBorders,
      circleRadius, circlePadding, List.enum]
  · norm_num

/-- C3 (confirmed): if the placements of two distinct entities both exited
the 50-attempt overlap search cleanly, the squared Euclidean distance
between their chart centers is at least `(a.radius + b.radius + 15)^2`
(equivalently, since both sides are nonnegative, the Euclidean distance is
at least `a.radius + b.radius + 15`). -/
theorem claim_C3_circle_separation (cosF sinF : ℚ → ℚ) (piQ : ℚ) (dims : ℚ × ℚ)
    (competitors : List CEntity) (i j : ℕ) (a b : CEntity) (pa pb : ChartPos)
    (hij : i < j)
    (hi : (calculateCompetitorPositions cosF sinF piQ competitors dims).get? i = some a)
    (hj : (calculateCompetitorPositions cosF sinF piQ competitors dims).get? j = some b)
    (hca : a.placedCleanly = some true)
    (hcb : b.placedCleanly = some true)
    (hpa : a.chartPosition = some pa)
    (hpb : b.chartPosition = some pb) :
    (pa.radius + pb.radius + 15) ^ 2 ≤ (pa.x - pb.x) ^ 2 + (pa.y - pb.y) ^ 2 := by
  rw [calculateCompetitorPositions] at hi hj
  obtain ⟨cp, hcp, hclean⟩ := placeLoop_get_spec cosF sinF dims _ [] j b hj
  have hcc : pb = cp := by rw [hpb] at hcp; exact Option.some_inj.mp hcp
  subst hcc
  have h2 := hclean hcb
  simp only [checkOverlap, Bool.or_eq_false_iff, List.nil_append] at h2
  have hmem : a ∈ (placeLoop cosF sinF dims
      (dispersePass cosF sinF piQ competitors) []).take j := by
    have : ((placeLoop cosF sinF dims
        (dispersePass cosF sinF piQ competitors) []).take j).get? i = some a := by
      rw [List.get?_take hij]; exact hi
    exact List.get?_mem this
  have hsp : spaceOfChart pa ∈ spacesOf ((placeLoop cosF sinF dims
      (dispersePass cosF sinF piQ competitors) []).take j) :=
    List.mem_filterMap.mpr ⟨a, hmem, by rw [hpa]; rfl⟩
  have hle := overlapsAny_eq_false pb.x pb.y pb.radius _ h2.1 (spaceOfChart pa) hsp
  simp only [spaceOfChart, circlePadding] at hle
  nlinarith [hle]

set_option maxHeartbeats 1000000 in
/-- Witness for C3: two cleanly placed entities at (400, 300) and (560, 180),
both radius 40, satisfy the squared separation bound. -/
theorem claim_C3_circle_separation_witness :
    ((40 : ℚ) + 40 + 15) ^ 2 ≤ ((400 : ℚ) - 560) ^ 2 + ((300 : ℚ) - 180) ^ 2 := by
  have hget0 : (calculateCompetitorPositions (fun _ => 0) (fun _ => 0) 0
      [{ authorityScore := 50, expertiseScore := 50 },
       { authorityScore := 70, expertiseScore := 70 }] (800, 600)).get? 0 =
      some { authorityScore := 50, expertiseScore := 50,
             chartPosition := some ⟨400, 300, 40⟩, placedCleanly := some true } := by
    norm_num [calculateCompetitorPositions, placeLoop, placeEntity, dispersePass,
      disperseStep, searchLoop, spiralXY, checkOverlap, overlapsAny, outsideBorders,
      circleRadius, circlePadding, List.enum]
  have hget1 : (calculateCompetitorPositions (fun _ => 0) (fun _ => 0) 0
      [{ authorityScore := 50, expertiseScore := 50 },
       { authorityScore := 70, expertiseScore := 70 }] (800, 600)).get? 1 =
      some { authorityScore := 70, expertiseScore := 70,
             chartPosition := some ⟨560, 180, 40⟩, placedCleanly := some true } := by
    norm_num [calculateCompetitorPositions, placeLoop, placeEntity, dispersePass,
      disperseStep, searchLoop, spiralXY, checkOverlap, overlapsAny, outsideBorders,
      circleRadius, circlePadding, List.enum]
  have h := claim_C3_circle_separation (fun _ => 0) (fun _ => 0) 0 (800, 600)
    [{ authorityScore := 50, expertiseScore := 50 },
     { authorityScore := 70, expertiseScore := 70 }] 0 1
    { authorityScore := 50, expertiseScore := 50,
      chartPosition := some ⟨400, 300, 40⟩, placedCleanly := some true }
    { authorityScore := 70, expertiseScore := 70,
      chartPosition := some ⟨560, 180, 40⟩, placedCleanly := some true }
    ⟨400, 300, 40⟩ ⟨560, 180, 40⟩ (by norm_num) hget0 hget1 rfl rfl rfl rfl
  simpa using h

/-!  ### C1: curving endpoints and (piecewise) monotonicity  -/

theorem round_mono {a b : ℚ} (h : a ≤ b) : round a ≤ round b := by
  rw [round_eq, round_eq]
  exact Int.floor_le_floor (by linarith)

theorem applyCurve_mono_low {x y : ℚ} (hxy : x ≤ y) (hy : y / 100 < 2/5) :
    applyCurve x ≤ applyCurve y := by
  have hx : x / 100 < 2/5 := lt_of_le_of_lt (by linarith) hy
  simp only [applyCurve, if_pos hx, if_pos hy]
  exact max_le_max le_rfl (min_le_min le_rfl (round_mono (by nlinarith)))

theorem applyCurve_mono_high {x y : ℚ} (hx : 2/5 ≤ x / 100) (hxy : x ≤ y) :
    applyCurve x ≤ applyCurve y := by
  have hy : 2/5 ≤ y / 100 := le_trans hx (by linarith)
  have hxy' : x / 100 ≤ y / 100 := by linarith
  simp only [applyCurve, if_neg (not_lt.mpr hx), if_neg (not_lt.mpr hy)]
  refine max_le_max le_rfl (min_le_min le_rfl (round_mono ?_))
  by_cases hx7 : x / 100 > 7/10
  · rw [if_pos hx7, if_pos (lt_of_lt_of_le hx7 hxy')]
    nlinarith
  · rw [if_neg hx7]
    by_cases hy7 : y / 100 > 7/10
    · rw [if_pos hy7]; push_neg at hx7; nlinarith
    · rw [if_neg hy7]; push_neg at hy7; nlinarith

/-- Counterexample to C1 as stated: `applyCurve` is **not** monotone
non-decreasing on the integers 0..100: at the 0.4-band boundary the curve
drops, `applyCurve 39 = 35 > 30 = applyCurve 40`. -/
theorem claim_C1_counterexample :
    (39 : ℚ) < 40 ∧ applyCurve 40 < applyCurve 39 ∧
    applyCurve 39 = 35 ∧ applyCurve 40 = 30 := by
  refine ⟨by norm_num, ?_, ?_, ?_⟩ <;> norm_num [applyCurve, round_eq]

/-- C1 (amended): the endpoints are exactly fixed (`applyCurve 0 = 0`,
`applyCurve 100 = 100`), and the curve is monotone non-decreasing on the
integer ranges `[0, 39]` and `[40, 100]` separately; the single violation of
monotonicity is the downward jump between 39 and 40 (the `n < 0.4` band
boundary), exhibited by the counterexample. -/
theorem claim_C1_curve_endpoints_mono :
    applyCurve 0 = 0 ∧ applyCurve 100 = 100 ∧
    (∀ x y : ℤ, 0 ≤ x → x ≤ y → y ≤ 100 → (y ≤ 39 ∨ 40 ≤ x) →
      applyCurve (x : ℚ) ≤ applyCurve (y : ℚ)) := by
  refine ⟨by norm_num [applyCurve, round_eq], by norm_num [applyCurve, round_eq], ?_⟩
  intro x y _ hxy _ hband
  rcases hband with hy39 | hx40
  · refine applyCurve_mono_low (by exact_mod_cast hxy) ?_
    rw [div_lt_iff (by norm_num)]
    calc (y : ℚ) ≤ 39 := by exact_mod_cast hy39
    _ < 2/5 * 100 := by norm_num
  · refine applyCurve_mono_high ?_ (by exact_mod_cast hxy)
    rw [le_div_iff (by norm_num)]
    calc (2/5 : ℚ) * 100 = 40 := by norm_num
    _ ≤ (x : ℚ) := by exact_mod_cast hx40

/-- Witness for C1 (amended): monotonicity instance inside the middle band,
`applyCurve 10 ≤ applyCurve 20`. -/
theorem claim_C1_curve_witness :
    applyCurve ((10 : ℤ) : ℚ) ≤ applyCurve ((20 : ℤ) : ℚ) :=
  claim_C1_curve_endpoints_mono.2.2 10 20 (by norm_num) (by norm_num) (by norm_num)
    (Or.inl (by norm_num))

/-!  ### C6 / C7: adaptive percentile thresholds  -/

/-- The threshold blend exactly as the spec sentence words it (the reference
side of the C6 refinement): the 70th percentile is the element at linear
index `floor(n * 0.7)` of the ascending-sorted score array — no
interpolation — and the blend is `0.7 * percentile + 0.3 * base`. -/
def specPercentileThreshold (peerScores : List ℚ) (base : ℤ) : ℤ :=
  round ((7 : ℚ)/10 * ((peerScores.mergeSort (· ≤ ·)).getD ((7 * peerScores.length) / 10) 0)
    + (3 : ℚ)/10 * (base : ℚ))

/-- C6 (confirmed): with at least 3 peers, each blended threshold equals
`round(0.7 * p + 0.3 * base)` where `p` is the peer score (defaulted to 50
when missing/zero) at ascending-sorted index `floor(n * 0.7)` and `base` is
the industry-adjusted base threshold; with fewer than 3 peers, the
classification thresholds are exactly the base-plus-industry-adjustment
values, with no percentile blending.  (The ≥3-peer thresholds additionally
undergo the minimum-separation step, claim C7.) -/
theorem claim_C6_percentile_thresholds :
    ∀ (competitors : List Peer) (industry : String),
      (3 ≤ competitors.length →
        blendedThresholds competitors industry =
          (specPercentileThreshold (competitors.map (fun c => jsNum c.expertiseScore 50))
             (baseThresholds industry).1,
           specPercentileThreshold (competitors.map (fun c => jsNum c.authorityScore 50))
             (baseThresholds industry).2) ∧
        finalThresholds competitors industry =
          separateThresholds (blendedThresholds competitors industry)) ∧
      (competitors.length < 3 →
        finalThresholds competitors industry = baseThresholds industry) := by
  intro competitors industry
  refine ⟨fun h3 => ⟨?_, ?_⟩, fun hlt => ?_⟩
  · simp only [blendedThresholds, specPercentileThreshold, percentile70, sortAsc,
      percentileIndex, Prod.mk.injEq]
    constructor <;> · congr 1; ring
  · rw [finalThresholds, if_pos h3]
  · rw [finalThresholds, if_neg (by omega)]

/-- Witness for C6: a concrete 3-peer list in the Healthcare industry hits
the blended branch, and a concrete 2-peer list in Technology skips blending
entirely. -/
theorem claim_C6_percentile_witness :
    (blendedThresholds
        [⟨some 60, some 55⟩, ⟨some 80, some 75⟩, ⟨some 72, some 40⟩] "Healthcare" =
      (specPercentileThreshold [60, 80, 72] 75, specPercentileThreshold [55, 75, 40] 65)) ∧
    (finalThresholds [⟨some 60, some 55⟩, ⟨some 80, some 75⟩] "Technology" =
      (70, 70)) := by
  have hbh : baseThresholds "Healthcare" = (75, 65) := by decide
  have hbt : baseThresholds "Technology" = (70, 70) := by decide
  constructor
  · have h := (claim_C6_percentile_thresholds
      [⟨some 60, some 55⟩, ⟨some 80, some 75⟩, ⟨some 72, some 40⟩] "Healthcare").1
      (by norm_num)
    rw [h.1, hbh]
    norm_num [jsNum]
  · have h := (claim_C6_percentile_thresholds
      [⟨some 60, some 55⟩, ⟨some 80, some 75⟩] "Technology").2 (by norm_num)
    rw [h, hbt]

/-- C7 (confirmed): with at least 3 peers, the two classification thresholds
produced after the push-apart step always differ by at least 5 in absolute
value. -/
theorem claim_C7_threshold_separation (competitors : List Peer) (industry : String)
    (h3 : 3 ≤ competitors.length) :
    5 ≤ |(finalThresholds competitors industry).1 -
         (finalThresholds competitors industry).2| := by
  rw [finalThresholds, if_pos h3]
  rcases hba : blendedThresholds competitors industry with ⟨e, a⟩
  rw [separateThresholds]
  by_cases hd : |e - a| < 5
  · rw [if_pos (by simpa using hd)]
    by_cases he : e > a
    · rw [if_pos (by simpa using he)]
      simp only
      rw [abs_of_pos (by omega)]
      omega
    · rw [if_neg (by simpa using he)]
      simp only
      rw [abs_of_nonpos (by push_neg at he; omega)]
      omega
  · rw [if_neg (by simpa using hd)]
    push_neg at hd
    simpa using hd

/-- Witness for C7: three 70/70 peers blend to thresholds (70, 69), which
the push-apart step separates to (73, 67); |73 - 67| = 6 ≥ 5. -/
theorem claim_C7_threshold_witness :
    finalThresholds [⟨some 70, some 70⟩, ⟨some 70, some 70⟩, ⟨some 70, some 70⟩] "" =
      (73, 67) ∧
    5 ≤ |(finalThresholds [⟨some 70, some 70⟩, ⟨some 70, some 70⟩,
          ⟨some 70, some 70⟩] "").1 -
         (finalThresholds [⟨some 70, some 70⟩, ⟨some 70, some 70⟩,
          ⟨some 70, some 70⟩] "").2| := by
  have hb : baseThresholds "" = (70, 65) := by decide
  constructor
  · norm_num [finalThresholds, blendedThresholds, separateThresholds, percentile70,
      sortAsc, percentileIndex, jsNum, hb, List.mergeSort, round_eq]
  · exact claim_C7_threshold_separation _ "" (by norm_num)

/-!  ### C10: the dispersion pre-pass mutates the caller's entities  -/

/-- The authority-axis dispersion overwrite described by C10: add
`dirX * (5 + 3k) * cos(kπ/size)` and clamp to `[30, 95]` (the clamp guard
re-tests JS truthiness of the nudged value). -/
def nudgeAuthority (cosF : ℚ → ℚ) (piQ : ℚ) (q : String) (size k : ℕ) (a : ℚ) : ℚ :=
  let dirX : ℚ := if q = "VERIFIED EXPERT" ∨ q = "VISIBILITY WITHOUT SUBSTANCE" then 1 else -1
  let a1 := a + dirX * (5 + (k : ℚ) * 3) * cosF (((k : ℚ) / (size : ℚ)) * piQ)
  if a1 ≠ 0 then max 30 (min 95 a1) else a1

/-- The expertise-axis dispersion overwrite described by C10. -/
def nudgeExpertise (sinF : ℚ → ℚ) (piQ : ℚ) (q : String) (size k : ℕ) (x : ℚ) : ℚ :=
  let dirY : ℚ := if q = "VERIFIED EXPERT" ∨ q = "HIDDEN EXPERT" then 1 else -1
  let x1 := x + dirY * (5 + (k : ℚ) * 3) * sinF (((k : ℚ) / (size : ℚ)) * piQ)
  if x1 ≠ 0 then max 30 (min 95 x1) else x1

theorem disperseEntity_position (cosF sinF : ℚ → ℚ) (piQ : ℚ) (q : String)
    (size k : ℕ) (e : CEntity) :
    (disperseEntity cosF sinF piQ q size k e).position = e.position := by
  rw [disperseEntity]; split <;> rfl

theorem disperseEntity_eq (cosF sinF : ℚ → ℚ) (piQ : ℚ) (q : String)
    (size k : ℕ) (e : CEntity) (hk : k ≠ 0)
    (ha0 : e.authorityScore ≠ 0) (he0 : e.expertiseScore ≠ 0) :
    disperseEntity cosF sinF piQ q size k e =
      { e with authorityScore := nudgeAuthority cosF piQ q size k e.authorityScore,
               expertiseScore := nudgeExpertise sinF piQ q size k e.expertiseScore } := by
  rw [disperseEntity, if_neg hk]
  simp only [nudgeAuthority, nudgeExpertise, if_pos ha0, if_pos he0]

theorem disperseStep_position (cosF sinF : ℚ → ℚ) (piQ : ℚ) (es : List CEntity)
    (je : ℕ × CEntity) :
    (disperseStep cosF sinF piQ es je).position = je.2.position := by
  rcases hp : je.2.position with - | q
  · simp [disperseStep, hp]
  · simp only [disperseStep, hp]
    split
    · split
      · exact hp
      · rw [disperseEntity_position]; exact hp
    · exact hp

theorem dispersePass_get?_nudged (cosF sinF : ℚ → ℚ) (piQ : ℚ) (es : List CEntity)
    (j : ℕ) (e : CEntity) (q : String)
    (hj : es.get? j = some e) (hq : e.position = some q) (hmem : q ∈ quadrantNames)
    (hbig : ¬ positionCount es q ≤ 1) :
    (dispersePass cosF sinF piQ es).get? j =
      some (disperseEntity cosF sinF piQ q (positionCount es q)
        (positionCount (es.take j) q) e) := by
  rw [dispersePass, List.get?_map, List.get?_enum, hj]
  simp only [Option.map_some', disperseStep, hq, if_pos hmem, Option.some.injEq]
  rw [if_neg hbig]

theorem dispersePass_map_position (cosF sinF : ℚ → ℚ) (piQ : ℚ) (es : List CEntity) :
    (dispersePass cosF sinF piQ es).map (fun e => e.position) =
      es.map (fun e => e.position) := by
  rw [dispersePass, List.map_map]
  have h2 : es.enum.map ((fun (e : CEntity) => e.position) ∘ disperseStep cosF sinF piQ es) =
      es.enum.map ((fun (e : CEntity) => e.position) ∘ Prod.snd) :=
    List.map_congr_left (fun je _ => disperseStep_position cosF sinF piQ es je)
  rw [h2, ← List.map_map, List.enum_map_snd]

theorem placeLoop_get_fields (cosF sinF : ℚ → ℚ) (dims : ℚ × ℚ) :
    ∀ (es : List CEntity) (spaces : List Space) (j : ℕ) (e : CEntity),
      es.get? j = some e →
      ∃ e', (placeLoop cosF sinF dims es spaces).get? j = some e' ∧
        e'.authorityScore = e.authorityScore ∧
        e'.expertiseScore = e.expertiseScore ∧
        e'.position = e.position := by
  intro es
  induction es with
  | nil => intro spaces j e h; simp at h
  | cons a rest ih =>
    intro spaces j e h
    obtain ⟨x, y, flag, radius, heq, -, -⟩ := placeEntity_spec cosF sinF dims spaces a
    rw [placeLoop, heq]
    match j with
    | 0 =>
      obtain rfl : a = e := by simpa using h
      exact ⟨_, rfl, rfl, rfl, rfl⟩
    | j + 1 =>
      simp only [List.get?] at h ⊢
      exact ih _ j e h

theorem placeLoop_map_position (cosF sinF : ℚ → ℚ) (dims : ℚ × ℚ) :
    ∀ (es : List CEntity) (spaces : List Space),
      (placeLoop cosF sinF dims es spaces).map (fun e => e.position) =
        es.map (fun e => e.position) := by
  intro es
  induction es with
  | nil => intro spaces; rw [placeLoop]
  | cons a rest ih =>
    intro spaces
    obtain ⟨x, y, flag, radius, heq, -, -⟩ := placeEntity_spec cosF sinF dims spaces a
    rw [placeLoop, heq, List.map_cons, List.map_cons, ih]

theorem calc_map_position (cosF sinF : ℚ → ℚ) (piQ : ℚ) (dims : ℚ × ℚ)
    (es : List CEntity) :
    (calculateCompetitorPositions cosF sinF piQ es dims).map (fun e => e.position) =
      es.map (fun e => e.position) := by
  rw [calculateCompetitorPositions, placeLoop_map_position, dispersePass_map_position]

theorem positionCount_congr {es fs : List CEntity}
    (h : es.map (fun e => e.position) = fs.map (fun e => e.position)) (q : String) :
    positionCount es q = positionCount fs q := by
  have key : ∀ (l : List CEntity), positionCount l q =
      (l.map (fun e => e.position)).countP (fun o => decide (o = some q)) := by
    intro l
    rw [positionCount, ← List.countP_eq_length_filter, List.countP_map]
    rfl
  rw [key, key, h]

/-- Single-application form of the C10 dispersion effect: the entity at index
`j`, lying at in-group index `k ≥ 1` of a quadrant group of size ≥ 2, leaves
`calculateCompetitorPositions` with its scores overwritten by the clamped
nudges, and with its `position` (hence the group structure) unchanged. -/
theorem calc_nudge (cosF sinF : ℚ → ℚ) (piQ : ℚ) (dims : ℚ × ℚ)
    (es : List CEntity) (j : ℕ) (e : CEntity) (q : String)
    (hj : es.get? j = some e) (hq : e.position = some q) (hmem : q ∈ quadrantNames)
    (hsize : 2 ≤ positionCount es q) (hk : 1 ≤ positionCount (es.take j) q)
    (ha0 : e.authorityScore ≠ 0) (he0 : e.expertiseScore ≠ 0) :
    ∃ e', (calculateCompetitorPositions cosF sinF piQ es dims).get? j = some e' ∧
      e'.position = some q ∧
      e'.authorityScore = nudgeAuthority cosF piQ q (positionCount es q)
        (positionCount (es.take j) q) e.authorityScore ∧
      e'.expertiseScore = nudgeExpertise sinF piQ q (positionCount es q)
        (positionCount (es.take j) q) e.expertiseScore := by
  have hd := dispersePass_get?_nudged cosF sinF piQ es j e q hj hq hmem (by omega)
  rw [disperseEntity_eq cosF sinF piQ q _ _ e (by omega) ha0 he0] at hd
  obtain ⟨e', he', ha', hx', hp'⟩ :=
    placeLoop_get_fields cosF sinF dims _ [] j _ hd
  refine ⟨e', ?_, ?_, ?_, ?_⟩
  · rw [calculateCompetitorPositions]; exact he'
  · exact hp'.trans hq
  · exact ha'
  · exact hx'

set_option maxHeartbeats 1000000 in
/-- C10 (amended): `calculateCompetitorPositions` overwrites, on the caller's
own entity objects (returned in the output list), the `authorityScore` and
`expertiseScore` of every quadrant-group member after the first whose scores
are JS-truthy (nonzero), replacing them with the clamped dispersion nudge
`clamp₍₃₀,₉₅₎(score + dir·(5+3k)·trig(kπ/size))`; the `position` field is
unchanged, so a second call on the same objects applies the same nudge again
to the already-nudged scores, compounding the displacement.  (The overwritten
value can coincide with the old one — e.g. at clamp saturation 95 — so the
scores need not *observably* change; see the counterexample.) -/
theorem claim_C10_dispersion_mutation (cosF sinF : ℚ → ℚ) (piQ : ℚ) (dims : ℚ × ℚ)
    (es : List CEntity) (j : ℕ) (e : CEntity) (q : String)
    (hj : es.get? j = some e) (hq : e.position = some q) (hmem : q ∈ quadrantNames)
    (hsize : 2 ≤ positionCount es q) (hk : 1 ≤ positionCount (es.take j) q)
    (ha0 : e.authorityScore ≠ 0) (he0 : e.expertiseScore ≠ 0)
    (h2a : nudgeAuthority cosF piQ q (positionCount es q)
      (positionCount (es.take j) q) e.authorityScore ≠ 0)
    (h2e : nudgeExpertise sinF piQ q (positionCount es q)
      (positionCount (es.take j) q) e.expertiseScore ≠ 0) :
    ∃ e', (calculateCompetitorPositions cosF sinF piQ es dims).get? j = some e' ∧
      e'.position = some q ∧
      e'.authorityScore = nudgeAuthority cosF piQ q (positionCount es q)
        (positionCount (es.take j) q) e.authorityScore ∧
      e'.expertiseScore = nudgeExpertise sinF piQ q (positionCount es q)
        (positionCount (es.take j) q) e.expertiseScore ∧
      ∃ e2, (calculateCompetitorPositions cosF sinF piQ
          (calculateCompetitorPositions cosF sinF piQ es dims) dims).get? j = some e2 ∧
        e2.authorityScore = nudgeAuthority cosF piQ q (positionCount es q)
          (positionCount (es.take j) q) e'.authorityScore ∧
        e2.expertiseScore = nudgeExpertise sinF piQ q (positionCount es q)
          (positionCount (es.take j) q) e'.expertiseScore := by
  obtain ⟨e', h1, h2, h3, h4⟩ :=
    calc_nudge cosF sinF piQ dims es j e q hj hq hmem hsize hk ha0 he0
  have hmap := calc_map_position cosF sinF piQ dims es
  have hsize' : positionCount (calculateCompetitorPositions cosF sinF piQ es dims) q =
      positionCount es q := positionCount_congr hmap q
  have htake' : positionCount
      ((calculateCompetitorPositions cosF sinF piQ es dims).take j) q =
      positionCount (es.take j) q := by
    refine positionCount_congr ?_ q
    rw [List.map_take, List.map_take, hmap]
  obtain ⟨e2, g1, g2, g3, g4⟩ :=
    calc_nudge cosF sinF piQ dims
      (calculateCompetitorPositions cosF sinF piQ es dims) j e' q h1 h2 hmem
      (by rw [hsize']; exact hsize) (by rw [htake']; exact hk)
      (by rw [h3]; exact h2a) (by rw [h4]; exact h2e)
  rw [hsize', htake'] at g3 g4
  exact ⟨e', h1, h2, h3, h4, e2, g1, g3, g4⟩

set_option maxHeartbeats 1000000 in
/-- Witness for C10 (amended): in a two-entity VERIFIED EXPERT group with
`cos = sin = 1` (a valid bounded-trig instance), the second entity's scores
are observably rewritten 50 → 58 by the first call and 58 → 66 by the second.
The first call's output entity at index 1 carries the mutated scores, showing
the caller's object changed. -/
theorem claim_C10_dispersion_witness :
    ∃ e', (calculateCompetitorPositions (fun _ => 1) (fun _ => 1) 3
        [{ authorityScore := 60, expertiseScore := 70, position := some "VERIFIED EXPERT" },
         { authorityScore := 50, expertiseScore := 50,
           position := some "VERIFIED EXPERT" }] (800, 600)).get? 1 = some e' ∧
      e'.authorityScore = 58 ∧ e'.expertiseScore = 58 := by
  obtain ⟨e', h1, -, h3, h4, -⟩ := claim_C10_dispersion_mutation
    (fun _ => 1) (fun _ => 1) 3 (800, 600)
    [{ authorityScore := 60, expertiseScore := 70, position := some "VERIFIED EXPERT" },
     { authorityScore := 50, expertiseScore := 50, position := some "VERIFIED EXPERT" }]
    1 { authorityScore := 50, expertiseScore := 50, position := some "VERIFIED EXPERT" }
    "VERIFIED EXPERT" rfl rfl (by decide)
    (by norm_num [positionCount, quadrantNames])
    (by norm_num [positionCount, quadrantNames])
    (by norm_num) (by norm_num)
    (by norm_num [nudgeAuthority, positionCount, quadrantNames])
    (by norm_num [nudgeExpertise, positionCount, quadrantNames])
  refine ⟨e', h1, ?_, ?_⟩
  · rw [h3]; norm_num [nudgeAuthority, positionCount, quadrantNames]
  · rw [h4]; norm_num [nudgeExpertise, positionCount, quadrantNames]

set_option maxHeartbeats 1000000 in
/-- Counterexample to C10 as stated: with the genuine trig values at the
nudge angle π/2 (`cos = 0`, `sin = 1`), a second group member already at the
clamp ceiling (95, 95) is rewritten with its own old values — the nudged
authority is 95 + 8·0 = 95 and the nudged expertise 95 + 8 = 103 clamps back
to 95 — so the caller's scores do **not** observably change. -/
theorem claim_C10_counterexample :
    ((calculateCompetitorPositions (fun _ => 0) (fun _ => 1) 3
        [{ authorityScore := 60, expertiseScore := 70, position := some "VERIFIED EXPERT" },
         { authorityScore := 95, expertiseScore := 95,
           position := some "VERIFIED EXPERT" }] (800, 600)).map
      (fun e => (e.authorityScore, e.expertiseScore))) = [(60, 70), (95, 95)] := by
  norm_num [calculateCompetitorPositions, placeLoop, placeEntity, dispersePass,
    disperseStep, disperseEntity, searchLoop, spiralXY, checkOverlap, overlapsAny,
    outsideBorders, circleRadius, circlePadding, positionCount, quadrantNames, List.enum]

/-!  ## Data model: the full entity record

Fields that a JS entity object may lack are `Option`-valued (`none` models
`undefined`); numeric truthiness (`0`, `NaN` falsy) is handled at each use
site exactly as the source does.  -/

/-- `googleData` sub-record. -/
structure GoogleData where
  placeId : Option String := none
  formattedAddress : Option String := none
  rating : Option ℚ := none
  userRatingsTotal : Option ℚ := none
  website : Option String := none
  phoneNumber : Option String := none
deriving DecidableEq

/-- `seoData` sub-record. -/
structure SeoData where
  traffic : Option ℚ := none
  keywords : Option ℚ := none
  backlinks : Option ℚ := none
  socialFollowers : Option ℚ := none
  seoStrength : Option ℚ := none
  referringDomains : Option ℚ := none
deriving DecidableEq

/-- `scoreLabels` sub-record (assigned by the enrichment pipeline). -/
structure ScoreLabels where
  overall : String
  expertise : String
  audienceTrust : String
  communication : String
deriving DecidableEq

/-- An entity (subject business or competitor). -/
structure Entity where
  name : String := ""
  url : Option String := none
  domain : Option String := none
  location : Option String := none
  specialty : Option String := none
  placeId : Option String := none
  expertiseScore : Option ℚ := none
  authorityScore : Option ℚ := none
  communicationScore : Option ℚ := none
  credibilityScore : Option ℚ := none
  position : Option String := none
  isBoss : Bool := false
  isSimulated : Bool := false
  isEstimated : Bool := false
  hasAnalysis : Option Bool := none
  hasAiAnalysis : Option Bool := none
  googleReviews : Option ℚ := none
  googleData : Option GoogleData := none
  seoData : Option SeoData := none
  scoreLabels : Option ScoreLabels := none
  strengths : Option (List String) := none
  weaknesses : Option (List String) := none
deriving DecidableEq

/-!  ## §4.3 Simulated-competitor generator (`generateSimulatedCompetitors`,
part_000 lines 896–1077)

`Math.random()` is modelled as an arbitrary stream `rng : ℕ → ℚ` consumed at
an explicit, sequentially threaded counter (one increment per JS
`Math.random()` call, in source order).
`contentFetcher.extractLocationFromDomain` is a collaborator parameter
`extractLoc`.  -/

/-- `simulationData.industryPrefixes` (analysis-engine constants). -/
def industryPrefixes (industry : String) : Option (List String) :=
  if industry = "Healthcare" then some ["Advanced", "City", "Premier", "Elite", "Modern",
    "Australian", "Sydney", "Melbourne", "Brisbane", "Perth", "National", "Complete", "Total"]
  else if industry = "Construction" then some ["Quality", "Expert", "Master", "Professional",
    "Advanced", "Premier", "Australian", "Western", "Eastern", "Southern", "Precision",
    "Custom", "Elite"]
  else if industry = "Environmental" then some ["Green", "Eco", "Sustainable", "Natural",
    "Earth", "Clean", "Australian", "Climate", "Environmental", "Sydney", "Organic",
    "Renewable", "Pure"]
  else if industry = "Technology" then some ["Tech", "Digital", "Innovative", "Smart",
    "Future", "Advanced", "Next-Gen", "Australian", "Sydney", "Melbourne", "Cloud",
    "Cyber", "Data"]
  else if industry = "Finance" then some ["Secure", "Trusted", "Premier", "Capital",
    "Financial", "Wealth", "Australian", "Sydney", "Melbourne", "Brisbane", "Strategic",
    "Global", "Asset"]
  else if industry = "Legal" then some ["Expert", "Premier", "Professional", "National",
    "Australian", "City", "Central", "Regional", "Metropolitan", "Capital", "Advocate",
    "Justice", "Rights"]
  else if industry = "Real Estate" then some ["Premier", "Elite", "Australian", "Capital",
    "City", "Metropolitan", "Regional", "National", "First", "Prime", "Select",
    "Prestige", "Choice"]
  else none

/-- `simulationData.industrySuffixes`. -/
def industrySuffixes (industry : String) : Option (List String) :=
  if industry = "Healthcare" then some ["Medical", "Healthcare", "Clinic", "Specialists",
    "Practice", "Doctors", "Health", "Wellness", "Care", "Group", "Medical Centre",
    "Hospital"]
  else if industry = "Construction" then some ["Builders", "Construction", "Homes",
    "Building", "Projects", "Contractors", "Renovations", "Development", "Structures",
    "Solutions", "Properties"]
  else if industry = "Environmental" then some ["Solutions", "Consultants", "Services",
    "Group", "Associates", "Advisors", "Management", "Team", "Professionals", "Experts",
    "Systems"]
  else if industry = "Technology" then some ["Technologies", "Solutions", "Systems", "IT",
    "Computing", "Digital", "Tech", "Software", "Group", "Services", "Networks", "Cloud",
    "Innovations"]
  else if industry = "Finance" then some ["Advisors", "Partners", "Planners", "Group",
    "Associates", "Consulting", "Management", "Services", "Solutions", "Specialists",
    "Investments"]
  else if industry = "Legal" then some ["Law Firm", "Legal", "Lawyers", "Attorneys",
    "Law Group", "Legal Partners", "Associates", "Solicitors", "Advocates",
    "Legal Services", "Legal Solutions"]
  else if industry = "Real Estate" then some ["Properties", "Real Estate", "Realty",
    "Homes", "Property Group", "Estate Agents", "Realtors", "Property Partners", "Land",
    "Residential"]
  else none

/-- `simulationData.defaultPrefixes`. -/
def defaultPrefixes : List String :=
  ["Premier", "Advanced", "Elite", "Expert", "Professional", "Complete", "Total",
   "Australian"]

/-- `simulationData.defaultSuffixes`. -/
def defaultSuffixes : List String :=
  ["Services", "Group", "Solutions", "Professionals", "Experts", "Associates",
   "Partners", "Australia"]

/-- The generator's `specialtyMap` (part_000 lines 907–917). -/
def specialtyMap (specialty : String) : Option (List String) :=
  if specialty = "Plastic Surgery" then some ["Plastic", "Cosmetic", "Aesthetic",
    "Reconstructive"]
  else if specialty = "Dental" then some ["Dental", "Orthodontic", "Periodontic"]
  else if specialty = "Medical" then some ["Medical", "Health", "Wellness"]
  else if specialty = "Construction" then some ["Home", "Building", "Renovation", "Custom"]
  else if specialty = "Environmental" then some ["Green", "Sustainable", "Eco", "Natural"]
  else if specialty = "Finance" then some ["Financial", "Wealth", "Investment",
    "Accounting"]
  else if specialty = "Legal" then some ["Law", "Legal", "Justice", "Attorney"]
  else if specialty = "Real Estate" then some ["Property", "Realty", "Estate", "Housing"]
  else none

/-- The `nearbyAreas` list (part_000 lines 974–977). -/
def nearbyAreas : List String :=
  ["North", "South", "East", "West", "Central", "Greater", "Inner", "Outer", "Metro"]

/-- The per-industry `baseTraffic` ranges of `getEstimatedTraffic`
(part_000 lines 930–940), with the `{min: 500, max: 2000}` fallback. -/
def baseTrafficRange (industry : String) : ℚ × ℚ :=
  if industry = "Healthcare" then (500, 2000)
  else if industry = "Construction" then (300, 1500)
  else if industry = "Environmental" then (400, 1200)
  else if industry = "Technology" then (800, 3000)
  else if industry = "Finance" then (600, 2500)
  else if industry = "Legal" then (400, 2000)
  else if industry = "Real Estate" then (700, 2800)
  else (500, 2000)

/-- The domain base string: `toLowerCase`, strip whitespace
(`replace(/\s+/g, '')`), then keep only `[a-z0-9]`. -/
def jsDomainBase (s : String) : String :=
  let noWs := s.toLower.toList.filter (fun c => !c.isWhitespace)
  String.mk (noWs.filter (fun c =>
    decide (('a' ≤ c ∧ c ≤ 'z') ∨ ('0' ≤ c ∧ c ≤ '9'))))

/-- `generateScoreWithDistribution` (part_000 lines 858–884): pick one of
three triangular-like distributions, draw `u`, `v`, and clamp the rounded
result to `[30, 95]`.  Returns the score and the advanced RNG counter. -/
def generateScoreWithDistribution (rng : ℕ → ℚ) (s : ℕ) : ℚ × ℕ :=
  let distributionTypes : List (ℚ × ℚ) := [(45, 15), (60, 15), (75, 15)]
  let distribution := distributionTypes.getD (⌊rng s * 3⌋.toNat) (45, 15)
  let u := rng (s + 1)
  let v := rng (s + 2)
  let triangular : ℚ :=
    if u > v then distribution.1 + distribution.2 * (u - 1/2)
    else distribution.1 - distribution.2 * (v - 1/2)
  (((max 30 (min 95 (round triangular)) : ℤ) : ℚ), s + 3)

/-- `getEstimatedTraffic` (part_000 lines 929–944). -/
def getEstimatedTraffic (rng : ℕ → ℚ) (industry : String) (isTopCompetitor : Bool)
    (s : ℕ) : ℚ × ℕ :=
  let indBase := baseTrafficRange industry
  let multiplier : ℚ := if isTopCompetitor then 3/2 else 1
  (((⌊(rng s * (indBase.2 - indBase.1) + indBase.1) * multiplier⌋ : ℤ) : ℚ), s + 1)

/-- The company-name composition step (part_000 lines 948–959): prefix and
suffix draws, optionally splicing in a specialty term.  Returns the name and
the advanced counter. -/
def genCompanyName (rng : ℕ → ℚ) (prefixes suffixes specialtyTerms : List String)
    (specialty : String) (s : ℕ) : String × ℕ :=
  let pfx := prefixes.getD (⌊rng s * prefixes.length⌋.toNat) ""
  let sfx := suffixes.getD (⌊rng (s + 1) * suffixes.length⌋.toNat) ""
  if specialty ≠ "" ∧ 0 < specialtyTerms.length then
    if rng (s + 2) > 2/5 then
      let specialtyTerm := specialtyTerms.getD (⌊rng (s + 3) * specialtyTerms.length⌋.toNat) ""
      (pfx ++ " " ++ specialtyTerm ++ " " ++ sfx, s + 4)
    else (pfx ++ " " ++ sfx, s + 3)
  else (pfx ++ " " ++ sfx, s + 2)

/-- The location step (part_000 lines 962–988): possibly extend the company
name with a location token and pick the competitor's location string.
Returns `(name, competitorLocation, counter)`. -/
def genLocation (rng : ℕ → ℚ) (locationTerms : List String)
    (userLocation userCity userState companyName : String) (s : ℕ) :
    String × String × ℕ :=
  if 0 < locationTerms.length then
    if rng s > 3/5 then
      ((if rng (s + 1) > 7/10 then companyName ++ " " ++ userCity else companyName),
       userLocation, s + 2)
    else
      let areaPfx := nearbyAreas.getD (⌊rng (s + 1) * nearbyAreas.length⌋.toNat) ""
      let localArea := areaPfx ++ " " ++ userCity
      ((if rng (s + 2) > 7/10 then companyName ++ " " ++ localArea else companyName),
       localArea ++ ", " ++ userState, s + 3)
  else (companyName, "", s)

/-- The boss score adjustment (part_000 lines 1050–1063): if the generated
boss ("top competitor") does not already beat the subject on either axis,
raise one of its two scores — chosen by a coin flip — to
`min(95, userScore + floor(random*15) + 5)`, where `userScore` is the
subject's score defaulted through `|| 60` (expertise) or `|| 50`
(authority).  Returns the adjusted `(expertise, authority)` pair and the
advanced RNG counter. -/
def bossAdjust (rng : ℕ → ℚ) (userData : Entity)
    (expertiseScore authorityScore : ℚ) (s5 : ℕ) : ℚ × ℚ × ℕ :=
  let userExpertise := jsNum userData.expertiseScore 60
  let userAuthority := jsNum userData.authorityScore 50
  if expertiseScore ≤ userExpertise ∧ authorityScore ≤ userAuthority then
    if rng s5 > 1/2 then
      (min 95 (userExpertise + ((⌊rng (s5 + 1) * 15⌋ : ℤ) : ℚ) + 5), authorityScore,
       s5 + 2)
    else
      (expertiseScore, min 95 (userAuthority + ((⌊rng (s5 + 1) * 15⌋ : ℤ) : ℚ) + 5),
       s5 + 2)
  else (expertiseScore, authorityScore, s5)

/-- One iteration of the generator loop (part_000 lines 947–1074), producing
the simulated competitor with index `i` from RNG counter `s`. -/
def generateOneCompetitor (rng : ℕ → ℚ) (extractLoc : Option String → Option String)
    (industry specialty : String) (userData : Entity) (i : ℕ) (s : ℕ) : Entity × ℕ :=
  let prefixes := (industryPrefixes industry).getD defaultPrefixes
  let suffixes := (industrySuffixes industry).getD defaultSuffixes
  let specialtyTerms : List String :=
    if specialty ≠ "" then (specialtyMap specialty).getD [specialty] else []
  let userLocation := jsStr userData.location (jsStr (extractLoc userData.domain) "")
  let locationTerms : List String :=
    if userLocation ≠ "" then (userLocation.splitOn ",").map String.trim else []
  let userState := if 0 < locationTerms.length
    then locationTerms.getD (locationTerms.length - 1) "" else ""
  let userCity := if 0 < locationTerms.length then locationTerms.getD 0 "" else ""
  let n1 := genCompanyName rng prefixes suffixes specialtyTerms specialty s
  let n2 := genLocation rng locationTerms userLocation userCity userState n1.1 n1.2
  let companyName := n2.1
  let competitorLocation := n2.2.1
  let g1 := generateScoreWithDistribution rng n2.2.2
  let expertiseScore := g1.1
  let g2 := generateScoreWithDistribution rng g1.2
  let authorityScore := g2.1
  let g3 := generateScoreWithDistribution rng g2.2
  let consistencyScore := g3.1
  let isTopCompetitor := i = 0
  let position := determineMarketPosition expertiseScore authorityScore
  let t := getEstimatedTraffic rng industry isTopCompetitor g3.2
  let traffic := t.1
  let socialFollowers : ℚ := if isTopCompetitor
    then ((⌊rng t.2 * 2000⌋ : ℤ) : ℚ) + 1000
    else ((⌊rng t.2 * 1000⌋ : ℤ) : ℚ) + 100
  let seoStrength : ℚ := if isTopCompetitor
    then 75 + rng (t.2 + 1) * 25
    else 40 + rng (t.2 + 1) * 40
  let domainBase0 := jsDomainBase companyName
  let domainBase := if 20 < domainBase0.length then domainBase0.take 20 else domainBase0
  let domain := domainBase ++ ".com.au"
  let s4 := t.2 + 2
  let competitor : Entity :=
    { name := companyName,
      url := some ("https://www." ++ domain),
      domain := some domain,
      expertiseScore := some expertiseScore,
      authorityScore := some authorityScore,
      communicationScore := some consistencyScore,
      position := some position,
      isSimulated := true,
      isBoss := isTopCompetitor,
      specialty := some (if specialty ≠ "" then specialty else industry),
      location := some competitorLocation,
      seoData := some
        { traffic := some traffic,
          socialFollowers := some socialFollowers,
          seoStrength := some seoStrength,
          keywords := some (((⌊traffic / 5⌋ : ℤ) : ℚ) + ((⌊rng s4 * 100⌋ : ℤ) : ℚ)),
          backlinks := some (((⌊traffic / 10⌋ : ℤ) : ℚ) + ((⌊rng (s4 + 1) * 50⌋ : ℤ) : ℚ)) },
      googleData := some
        { rating := some (7/2 + rng (s4 + 2) * (3/2)),
          userRatingsTotal := some (((⌊rng (s4 + 3) * 50⌋ : ℤ) : ℚ) + 5) } }
  let s5 := s4 + 4
  if isTopCompetitor then
    let adj := bossAdjust rng userData expertiseScore authorityScore s5
    ({ competitor with
        expertiseScore := some adj.1,
        authorityScore := some adj.2.1,
        position := some "VERIFIED EXPERT",
        googleData := some
          { rating := some (min 5 (21/5 + rng adj.2.2 * (4/5))),
            userRatingsTotal := some (((⌊rng (adj.2.2 + 1) * 100⌋ : ℤ) : ℚ) + 25) } },
     adj.2.2 + 2)
  else (competitor, s5)

/-- The generator loop: `fuel` remaining iterations starting at index `i`
with RNG counter `s`. -/
def generateLoop (rng : ℕ → ℚ) (extractLoc : Option String → Option String)
    (industry specialty : String) (userData : Entity) :
    ℕ → ℕ → ℕ → List Entity × ℕ
  | _, 0, s => ([], s)
  | i, fuel + 1, s =>
    let p := generateOneCompetitor rng extractLoc industry specialty userData i s
    let rest := generateLoop rng extractLoc industry specialty userData (i + 1) fuel p.2
    (p.1 :: rest.1, rest.2)

/-- `generateSimulatedCompetitors(industry, specialty, userData, count)`. -/
def generateSimulatedCompetitors (rng : ℕ → ℚ)
    (extractLoc : Option String → Option String)
    (industry specialty : String) (userData : Entity) (count : ℕ) : List Entity :=
  (generateLoop rng extractLoc industry specialty userData 0 count 0).1

/-!  ### C8: count, unique boss, boss score guarantee  -/

theorem generateOneCompetitor_flags (rng : ℕ → ℚ)
    (extractLoc : Option String → Option String) (industry specialty : String)
    (userData : Entity) (i s : ℕ) :
    (generateOneCompetitor rng extractLoc industry specialty userData i s).1.isSimulated
      = true ∧
    (generateOneCompetitor rng extractLoc industry specialty userData i s).1.isBoss
      = decide (i = 0) := by
  rw [generateOneCompetitor]
  split
  · exact ⟨rfl, rfl⟩
  · exact ⟨rfl, rfl⟩

theorem generateOneCompetitor_boss_shape (rng : ℕ → ℚ)
    (extractLoc : Option String → Option String) (industry specialty : String)
    (userData : Entity) (s : ℕ) :
    ∃ (e1 a1 : ℚ) (s5 : ℕ),
      (generateOneCompetitor rng extractLoc industry specialty userData 0 s).1.expertiseScore
        = some (bossAdjust rng userData e1 a1 s5).1 ∧
      (generateOneCompetitor rng extractLoc industry specialty userData 0 s).1.authorityScore
        = some (bossAdjust rng userData e1 a1 s5).2.1 := by
  rw [generateOneCompetitor]
  rw [if_pos rfl]
  exact ⟨_, _, _, rfl, rfl⟩

theorem bossAdjust_beats_subject (rng : ℕ → ℚ) (userData : Entity)
    (e1 a1 : ℚ) (s5 : ℕ) (hr : 0 ≤ rng (s5 + 1)) (ue ua : ℚ)
    (hue : userData.expertiseScore = some ue) (hua : userData.authorityScore = some ua)
    (hue95 : ue ≤ 95) (hua95 : ua ≤ 95) :
    ue ≤ (bossAdjust rng userData e1 a1 s5).1 ∨
    ua ≤ (bossAdjust rng userData e1 a1 s5).2.1 := by
  have hfl : (0 : ℚ) ≤ ((⌊rng (s5 + 1) * 15⌋ : ℤ) : ℚ) := by
    have : (0 : ℤ) ≤ ⌊rng (s5 + 1) * 15⌋ := Int.floor_nonneg.mpr (by positivity)
    exact_mod_cast this
  have hUE : ue ≤ jsNum userData.expertiseScore 60 := by
    rw [hue, jsNum]
    split
    · next h => rw [h]; norm_num
    · exact le_rfl
  have hUA : ua ≤ jsNum userData.authorityScore 50 := by
    rw [hua, jsNum]
    split
    · next h => rw [h]; norm_num
    · exact le_rfl
  rw [bossAdjust]
  split
  · split
    · left
      simp only
      exact le_min hue95 (by linarith)
    · right
      simp only
      exact le_min hua95 (by linarith)
  · next hcond =>
    rcases not_and_or.mp hcond with hgt | hgt
    · left; simp only; push_neg at hgt; linarith
    · right; simp only; push_neg at hgt; linarith

theorem generateLoop_length (rng : ℕ → ℚ)
    (extractLoc : Option String → Option String) (industry specialty : String)
    (userData : Entity) :
    ∀ (fuel i s : ℕ),
      (generateLoop rng extractLoc industry specialty userData i fuel s).1.length = fuel := by
  intro fuel
  induction fuel with
  | zero => intro i s; rw [generateLoop]; rfl
  | succ n ih =>
    intro i s
    rw [generateLoop]
    simp only [List.length_cons, ih]

theorem generateLoop_get? (rng : ℕ → ℚ)
    (extractLoc : Option String → Option String) (industry specialty : String)
    (userData : Entity) :
    ∀ (fuel i s j : ℕ) (e : Entity),
      (generateLoop rng extractLoc industry specialty userData i fuel s).1.get? j
        = some e →
      ∃ s', e = (generateOneCompetitor rng extractLoc industry specialty userData
        (i + j) s').1 := by
  intro fuel
  induction fuel with
  | zero => intro i s j e h; rw [generateLoop] at h; simp at h
  | succ n ih =>
    intro i s j e h
    rw [generateLoop] at h
    match j with
    | 0 =>
      have h0 : (generateOneCompetitor rng extractLoc industry specialty userData
          i s).1 = e := by simpa using h
      exact ⟨s, by rw [Nat.add_zero]; exact h0.symm⟩
    | j + 1 =>
      simp only [List.get?] at h
      obtain ⟨s', hs'⟩ := ih (i + 1) _ j e h
      refine ⟨s', ?_⟩
      have hidx : i + 1 + j = i + (j + 1) := by omega
      rw [hs', hidx]

set_option maxHeartbeats 1000000 in
/-- C8 (amended): for every industry, specialty, subject and `count ≥ 1`,
`generateSimulatedCompetitors` returns exactly `count` entities, all with
`isSimulated = true`, of which exactly the first has `isBoss = true`; and —
provided the RNG stream is nonnegative and the subject's scores do not
exceed the generator's clamp ceiling 95 — the boss's expertiseScore or
authorityScore is at least the subject's corresponding score.  (For a
subject score above 95 the `min(95, ...)` clamp can leave both boss scores
strictly below the subject's; see the counterexample.) -/
theorem claim_C8_generator (rng : ℕ → ℚ)
    (extractLoc : Option String → Option String) (industry specialty : String)
    (userData : Entity) (count : ℕ) (hcount : 1 ≤ count)
    (hrng : ∀ n, 0 ≤ rng n) (ue ua : ℚ)
    (hue : userData.expertiseScore = some ue) (hua : userData.authorityScore = some ua)
    (hue95 : ue ≤ 95) (hua95 : ua ≤ 95) :
    (generateSimulatedCompetitors rng extractLoc industry specialty userData
        count).length = count ∧
    (∀ (j : ℕ) (e : Entity),
      (generateSimulatedCompetitors rng extractLoc industry specialty userData
          count).get? j = some e →
      e.isSimulated = true ∧ (e.isBoss = true ↔ j = 0)) ∧
    ∃ boss, (generateSimulatedCompetitors rng extractLoc industry specialty userData
        count).get? 0 = some boss ∧ boss.isBoss = true ∧
      ∃ be ba, boss.expertiseScore = some be ∧ boss.authorityScore = some ba ∧
        (ue ≤ be ∨ ua ≤ ba) := by
  refine ⟨generateLoop_length rng extractLoc industry specialty userData count 0 0,
    ?_, ?_⟩
  · intro j e h
    obtain ⟨s', hs'⟩ := generateLoop_get? rng extractLoc industry specialty userData
      count 0 0 j e h
    obtain ⟨h1, h2⟩ := generateOneCompetitor_flags rng extractLoc industry specialty
      userData (0 + j) s'
    rw [← hs'] at h1 h2
    refine ⟨h1, ?_⟩
    rw [h2]
    simp
  · have hlen0 : (generateSimulatedCompetitors rng extractLoc industry specialty
        userData count).length = count :=
      generateLoop_length rng extractLoc industry specialty userData count 0 0
    have hlen : 0 < (generateSimulatedCompetitors rng extractLoc industry specialty
        userData count).length := by omega
    have hb := List.get?_eq_get hlen
    obtain ⟨s', hs'⟩ := generateLoop_get? rng extractLoc industry specialty userData
      count 0 0 0 _ hb
    have hs0 : (generateSimulatedCompetitors rng extractLoc industry specialty userData
        count).get ⟨0, hlen⟩ = (generateOneCompetitor rng extractLoc industry specialty
        userData 0 s').1 := hs'
    obtain ⟨-, hflag⟩ := generateOneCompetitor_flags rng extractLoc industry specialty
      userData 0 s'
    obtain ⟨e1, a1, s5, hse, hsa⟩ := generateOneCompetitor_boss_shape rng extractLoc
      industry specialty userData s'
    refine ⟨_, hb, ?_, ?_⟩
    · rw [hs0, hflag]; rfl
    · exact ⟨_, _, by rw [hs0]; exact hse, by rw [hs0]; exact hsa,
        bossAdjust_beats_subject rng userData e1 a1 s5 (hrng _) ue ua hue hua
          hue95 hua95⟩

/-- Witness for C8 (amended): with the all-zeros RNG stream and a subject
scoring 60/50, the generator returns exactly 2 entities and the boss (whose
generated scores are 53/53, already beating the subject's authority 50)
satisfies the guarantee. -/
theorem claim_C8_generator_witness :
    (generateSimulatedCompetitors (fun _ => 0) (fun _ => none) "" ""
      { expertiseScore := some 60, authorityScore := some 50 } 2).length = 2 ∧
    ∃ boss, (generateSimulatedCompetitors (fun _ => 0) (fun _ => none) "" ""
        { expertiseScore := some 60, authorityScore := some 50 } 2).get? 0 = some boss ∧
      boss.isBoss = true ∧
      ∃ be ba, boss.expertiseScore = some be ∧ boss.authorityScore = some ba ∧
        ((60 : ℚ) ≤ be ∨ (50 : ℚ) ≤ ba) := by
  obtain ⟨h1, -, h3⟩ := claim_C8_generator (fun _ => 0) (fun _ => none) "" ""
    { expertiseScore := some 60, authorityScore := some 50 } 2 (by norm_num)
    (fun _ => le_rfl) 60 50 rfl rfl (by norm_num) (by norm_num)
  exact ⟨h1, h3⟩

set_option maxHeartbeats 1000000 in
/-- Counterexample to C8 as stated: for a subject scoring 100/100 (above the
generator's 95 ceiling) and the all-zeros RNG stream, the single generated
boss ends with expertise 53 and authority `min(95, 100 + 0 + 5) = 95` — both
strictly below the subject's corresponding scores, so neither axis meets
"boss score ≥ subject score". -/
theorem claim_C8_counterexample :
    ((generateSimulatedCompetitors (fun _ => 0) (fun _ => none) "" ""
        { expertiseScore := some 100, authorityScore := some 100 } 1).map
      (fun e => (e.expertiseScore, e.authorityScore, e.isBoss))) =
      [(some 53, some 95, true)] ∧ (53 : ℚ) < 100 ∧ (95 : ℚ) < 100 := by
  refine ⟨?_, by norm_num, by norm_num⟩
  norm_num [generateSimulatedCompetitors, generateLoop, generateOneCompetitor,
    bossAdjust, genCompanyName, genLocation, generateScoreWithDistribution,
    getEstimatedTraffic, jsNum, jsStr, round_eq]

/-!  ## §4.5 Insight generator (`generateCompetitiveInsights`,
part_000 lines 1431–1626)

`Number.prototype.toLocaleString` and the template interpolation of raw
numbers are locale/format functions of the runtime; they are parameters
`fmt` and `numStr`.  -/

/-- An insight `{type, title, message}`. -/
structure Insight where
  type : String
  title : String
  message : String
deriving DecidableEq

/-- The comprehensive score used to rank competitors (part_000 lines
1439–1449): `googleScore + seoScore + authorityScore`, with JS `||`
defaults. -/
def totalDigitalScore (e : Entity) : ℚ :=
  let googleScore := jsNum (e.googleData.bind (fun g => g.userRatingsTotal)) 0 *
    jsNum (e.googleData.bind (fun g => g.rating)) 3 / 5
  let seoScore := jsNum (e.seoData.bind (fun s => s.traffic)) 0 / 100 +
    jsNum (e.seoData.bind (fun s => s.keywords)) 0 / 50 +
    jsNum (e.seoData.bind (fun s => s.backlinks)) 0 / 20 +
    jsNum (e.seoData.bind (fun s => s.socialFollowers)) 0 / 50
  googleScore + seoScore + jsNum e.authorityScore 50

/-- The industry-specific review-strength phrasing (part_000 lines
1467–1480). -/
def reviewStrengthPhrase (industry : String) : String :=
  if industry = "Healthcare" then "patient reviews and testimonials"
  else if industry = "Construction" then "client reviews and portfolio showcases"
  else if industry = "Finance" then "client testimonials and case studies"
  else if industry = "Legal" then "client reviews and case outcomes"
  else if industry = "Real Estate" then "client reviews and property listings"
  else "customer reviews and testimonials"

/-- The top competitor's strength attribute and datum, checked in the fixed
priority order of part_000 lines 1462–1492. -/
def competitorStrengthParts (fmt numStr : ℚ → String) (industry : String)
    (top : Entity) : String × String :=
  if top.seoData.isSome ∧ numTruthy (top.seoData.bind (fun s => s.traffic)) = true ∧
      jsNum (top.seoData.bind (fun s => s.traffic)) 0 > 1000 then
    ("SEO and website traffic",
     "with approximately " ++ fmt (jsNum (top.seoData.bind (fun s => s.traffic)) 0) ++
       " monthly visitors")
  else if top.googleData.isSome ∧
      jsNum (top.googleData.bind (fun g => g.userRatingsTotal)) 0 > 15 then
    (reviewStrengthPhrase industry,
     "with " ++ numStr (jsNum (top.googleData.bind (fun g => g.userRatingsTotal)) 0) ++
       " Google reviews (" ++ numStr (jsNum (top.googleData.bind (fun g => g.rating)) 0) ++
       "/5 stars)")
  else if top.seoData.isSome ∧
      numTruthy (top.seoData.bind (fun s => s.socialFollowers)) = true ∧
      jsNum (top.seoData.bind (fun s => s.socialFollowers)) 0 > 500 then
    ("social media presence",
     "with approximately " ++
       fmt (jsNum (top.seoData.bind (fun s => s.socialFollowers)) 0) ++
       " social media followers")
  else if top.seoData.isSome ∧
      numTruthy (top.seoData.bind (fun s => s.backlinks)) = true ∧
      jsNum (top.seoData.bind (fun s => s.backlinks)) 0 > 50 then
    ("link building and industry references",
     "with " ++ numStr (jsNum (top.seoData.bind (fun s => s.backlinks)) 0) ++
       " websites linking to them")
  else ("online marketing", "giving them a competitive advantage")

/-- The qualitative competitive-gap sentence (part_000 lines 1495–1509). -/
def competitiveGapSentence (userData top : Entity) : String :=
  if numTruthy userData.expertiseScore = true ∧ numTruthy userData.authorityScore = true ∧
      numTruthy top.expertiseScore = true ∧ numTruthy top.authorityScore = true then
    let expertiseGap := jsNum top.expertiseScore 0 - jsNum userData.expertiseScore 0
    let authorityGap := jsNum top.authorityScore 0 - jsNum userData.authorityScore 0
    if expertiseGap > 20 ∧ authorityGap > 20 then
      " They significantly outperform in both expertise demonstration and digital authority."
    else if expertiseGap > 20 then
      " Their main advantage is in expertise demonstration on their website."
    else if authorityGap > 20 then
      " Their primary advantage is in online visibility and digital authority."
    else ""
  else ""

/-- The competitor-dominance insight (part_000 lines 1512–1516).  The
subsequent in-place boss-flagging and repositioning of the top competitor
object (lines 1518–1532) mutate the competitor record but contribute nothing
to the returned insight list, which is what this model exposes. -/
def competitorDominanceInsight (fmt numStr : ℚ → String) (industry : String)
    (userData top : Entity) : Insight :=
  let parts := competitorStrengthParts fmt numStr industry top
  { type := "competitor",
    title := top.name ++ " Dominates Online",
    message := top.name ++ " is investing in " ++ parts.1 ++ ", " ++ parts.2 ++
      " and giving them a competitive advantage in online visibility." ++
      competitiveGapSentence userData top }

/-- The fixed industry-specific insights (part_000 lines 1536–1583),
including the AHPRA insight for regulated Healthcare specialties. -/
def industryInsightsFor (industry : String) (userData : Entity) : List Insight :=
  if industry = "Healthcare" then
    { type := "industry", title := "Healthcare Authority",
      message := "In healthcare, balancing clinical expertise with digital visibility is critical for establishing trust while complying with Australian regulations." } ::
    (if userData.specialty = some "Plastic Surgery" ∨
        userData.specialty = some "Cosmetic Surgery" then
      [{ type := "regulation", title := "AHPRA Compliance",
         message := "For plastic and cosmetic surgeons, AHPRA guidelines limit use of patient testimonials and before/after photos. Focus on educational content and your credentials instead." }]
    else [])
  else if industry = "Construction" then
    [{ type := "industry", title := "Construction Credibility",
       message := "In construction, showcasing completed projects and proven results builds more credibility than general marketing claims." }]
  else if industry = "Environmental" then
    [{ type := "industry", title := "Environmental Impact",
       message := "Environmental services require demonstrating both expertise and measurable outcomes - focus on case studies with quantifiable results." }]
  else if industry = "Finance" then
    [{ type := "industry", title := "Finance Trust Factors",
       message := "In financial services, clear display of credentials, AFSL information, and educational content builds more trust than marketing claims." }]
  else if industry = "Legal" then
    [{ type := "industry", title := "Legal Authority",
       message := "For legal services, demonstrating specialized expertise and successful outcomes (while maintaining client confidentiality) is key to digital authority." }]
  else if industry = "Real Estate" then
    [{ type := "industry", title := "Property Expertise",
       message := "In real estate, local market knowledge and property success stories create more authority than general promotional content." }]
  else []

/-- The hidden-expert condition (part_000 lines 1586–1588); comparisons on a
missing (`undefined`) score are false. -/
def hiddenExpertCond (userData : Entity) : Prop :=
  match userData.expertiseScore, userData.authorityScore with
  | some e, some a => e ≥ 65 ∧ a < 50 ∧ e - a ≥ 20
  | _, _ => False

instance (userData : Entity) : Decidable (hiddenExpertCond userData) := by
  rw [hiddenExpertCond]
  rcases userData.expertiseScore with - | e <;> rcases userData.authorityScore with - | a <;>
    exact inferInstance

/-- The fixed hidden-expert insight (part_000 lines 1590–1594). -/
def hiddenExpertInsight : Insight :=
  { type := "hidden", title := "Hidden Expert Detected",
    message := "Your expertise is being hidden by low online visibility. Your ability significantly outshines your online presence, making it difficult for potential clients to discover your services." }

/-- The simulated `industryAverages` table with its `default` fallback
(part_000 lines 1636–1647). -/
def industryAverage (industry : String) : ℚ :=
  if industry = "Healthcare" then 68
  else if industry = "Construction" then 62
  else if industry = "Environmental" then 58
  else if industry = "Technology" then 75
  else if industry = "Finance" then 71
  else if industry = "Legal" then 70
  else if industry = "Real Estate" then 64
  else 60

/-- `getComparisonToAverage` (part_000 lines 1634–1655). -/
def getComparisonToAverage (score : ℚ) (industry : String) : String :=
  let difference := score - industryAverage industry
  if difference ≥ 20 then "significantly above average"
  else if difference ≥ 10 then "above average"
  else if difference ≥ -10 then "around average"
  else if difference ≥ -20 then "below average"
  else "significantly below average"

/-- `getIndustryAdviceByComparison` (part_000 lines 1663–1686). -/
def getIndustryAdviceByComparison (score : ℚ) (industry : String) : String :=
  let difference := score - industryAverage industry
  if difference ≥ 10 then
    "Businesses with above-average credibility in the " ++ industry ++
      " industry typically see 35% higher conversion rates and 27% greater client retention."
  else if difference ≥ -10 then
    "Businesses that improve from average to high credibility in the " ++ industry ++
      " industry typically see a 42% increase in qualified leads."
  else
    industry ++ " businesses that improve their credibility from below average to above average typically see a 78% increase in new client acquisition."

/-- The always-emitted industry-average comparison insight (part_000 lines
1598–1602). -/
def industryAverageInsight (industry : String) (userData : Entity) : Insight :=
  { type := "average", title := "Industry Average Comparison",
    message := "Compared to the Australian industry average for " ++ industry ++
      ", your overall credibility score is " ++
      getComparisonToAverage (jsNum userData.credibilityScore 0) industry ++ ". " ++
      getIndustryAdviceByComparison (jsNum userData.credibilityScore 0) industry }

/-- The final selection step (part_000 lines 1604–1625): pull out the
competitor / hidden / average insights, put them first in that order, append
the rest, and keep at most 3. -/
def assembleInsights (insights : List Insight) : List Insight :=
  let competitorInsight := insights.find? (fun i => i.type == "competitor")
  let hiddenInsight := insights.find? (fun i => i.type == "hidden")
  let averageInsight := insights.find? (fun i => i.type == "average")
  let otherInsights := insights.filter (fun i =>
    decide (i.type ≠ "competitor" ∧ i.type ≠ "hidden" ∧ i.type ≠ "average"))
  let prioritizedInsights :=
    (match competitorInsight with | some c => [c] | none => []) ++
    (match hiddenInsight with | some h => [h] | none => []) ++
    (match averageInsight with | some a => [a] | none => [])
  (prioritizedInsights ++ otherInsights).take 3

/-- `generateCompetitiveInsights(userData, competitors, industry)`. -/
def generateCompetitiveInsights (fmt numStr : ℚ → String) (userData : Entity)
    (competitors : List Entity) (industry : String) : List Insight :=
  let competitorInsights : List Insight :=
    if 0 < competitors.length then
      match (competitors.mergeSort (fun a b =>
          decide (totalDigitalScore b ≤ totalDigitalScore a))).head? with
      | some top => [competitorDominanceInsight fmt numStr industry userData top]
      | none => []
    else []
  let insights := competitorInsights ++ industryInsightsFor industry userData ++
    (if hiddenExpertCond userData then [hiddenExpertInsight] else []) ++
    [industryAverageInsight industry userData]
  assembleInsights insights

theorem assembleInsights_length_le (insights : List Insight) :
    (assembleInsights insights).length ≤ 3 := by
  rw [assembleInsights]
  exact List.length_take_le _ _

theorem assembleInsights_head (c : Insight) (L : List Insight)
    (hc : c.type = "competitor") :
    (assembleInsights (c :: L)).head? = some c := by
  rw [assembleInsights]
  have hfind : (c :: L).find? (fun i => i.type == "competitor") = some c :=
    List.find?_cons_of_pos _ (by simp [hc])
  rw [hfind]
  simp only [List.cons_append, List.take_succ_cons, List.head?_cons]

/-- C9 (confirmed): `generateCompetitiveInsights` always returns at most 3
insight items, and whenever the competitor list is non-empty the first
returned item is the competitor-dominance insight (type `"competitor"`). -/
theorem claim_C9_insights (fmt numStr : ℚ → String) (userData : Entity)
    (competitors : List Entity) (industry : String) :
    (generateCompetitiveInsights fmt numStr userData competitors industry).length ≤ 3 ∧
    (competitors ≠ [] →
      ∃ ins, (generateCompetitiveInsights fmt numStr userData competitors
          industry).head? = some ins ∧ ins.type = "competitor") := by
  constructor
  · rw [generateCompetitiveInsights]
    exact assembleInsights_length_le _
  · intro hne
    have hlen : 0 < competitors.length := List.length_pos.mpr hne
    rcases hsort : competitors.mergeSort (fun a b =>
        decide (totalDigitalScore b ≤ totalDigitalScore a)) with - | ⟨top, rest⟩
    · exfalso
      have hl : (competitors.mergeSort (fun a b =>
          decide (totalDigitalScore b ≤ totalDigitalScore a))).length =
          competitors.length := List.length_mergeSort competitors
      rw [hsort] at hl
      simp at hl
      omega
    · refine ⟨competitorDominanceInsight fmt numStr industry userData top, ?_, rfl⟩
      rw [generateCompetitiveInsights, if_pos hlen, hsort]
      simp only [List.head?_cons, List.singleton_append, List.cons_append]
      exact assembleInsights_head _ _ rfl

/-- Witness for C9: a single default competitor yields a first insight of
type `"competitor"`. -/
theorem claim_C9_insights_witness :
    ∃ ins, (generateCompetitiveInsights (fun _ => "") (fun _ => "")
        {} [{}] "").head? = some ins ∧ ins.type = "competitor" :=
  (claim_C9_insights (fun _ => "") (fun _ => "") {} [{}] "").2
    (List.cons_ne_nil _ _)

/-!  ## §4.4 Competitor enrichment (`enhanceCompetitorData`,
part_000 lines 1087–1261, and `processCompetitors`, lines 1695–1710)

The asynchronous collaborators (Places search/details, DataForSEO overview
and backlinks, content fetch, OpenAI analysis, keyword analysis) are bundled
in a `Collab` record of functions into `Except String _`: an `.error` is a
thrown/rejected promise, an `.ok none` is a `null` result.  Module API-key
state is carried in the same record.  `Math.random()` draws of the
score-synthesis step are `rng 0`, `rng 1`, `rng 2` in source order.  -/

/-- Result shape of `searchBusinessByName` (a Places candidate). -/
structure PlaceSearchResult where
  place_id : Option String := none
  formatted_address : Option String := none
deriving DecidableEq

/-- Result shape of `getBusinessDetails`. -/
structure PlaceDetails where
  formatted_address : Option String := none
  rating : Option ℚ := none
  user_ratings_total : Option ℚ := none
  website : Option String := none
  formatted_phone_number : Option String := none
deriving DecidableEq

/-- Result shape of `getDomainOverview`. -/
structure DomainData where
  organic_traffic_monthly : Option ℚ := none
  organic_keywords_count : Option ℚ := none
  backlinks_count : Option ℚ := none
deriving DecidableEq

/-- Result shape of `getBacklinkData`. -/
structure BacklinkData where
  total_backlinks : Option ℚ := none
  referring_domains : Option ℚ := none
deriving DecidableEq

/-- Result shape of `analyzeContentWithAI`. -/
structure AiAnalysis where
  expertiseScore : ℚ
  authorityScore : ℚ
  contentQualityScore : ℚ
  trustScore : ℚ
  strengths : List String := []
  weaknesses : List String := []
deriving DecidableEq

/-- Result shape of `analysisEngine.analyzeAuthorityIndex`. -/
structure AnalysisResult where
  expertiseSignals : ℚ
  digitalAuthority : ℚ
  consistencyMarkers : ℚ
deriving DecidableEq

/-- The collaborator bundle and module key state. -/
structure Collab where
  googlePlacesApiKey : String := ""
  openaiApiKey : String := ""
  searchBusinessByName : String → String → Except String (Option PlaceSearchResult) :=
    fun _ _ => .ok none
  getBusinessDetails : String → Except String (Option PlaceDetails) := fun _ => .ok none
  getDomainOverview : String → Except String (Option DomainData) := fun _ => .ok none
  getBacklinkData : String → Except String (Option BacklinkData) := fun _ => .ok none
  getWebsiteContent : String → Except String String := fun _ => .error ""
  analyzeContentWithAI : String → String → String → Except String (Option AiAnalysis) :=
    fun _ _ _ => .ok none
  analyzeAuthorityIndex : String → String → String → Except String AnalysisResult :=
    fun _ _ _ => .error ""

/-- `calculateSeoStrength` (part_000 lines 1268–1293); `none` is the
`!domainData` early return. -/
def calculateSeoStrength (domainData : Option DomainData) : ℚ :=
  match domainData with
  | none => 50
  | some d =>
    let traffic := jsNum d.organic_traffic_monthly 0
    let s1 : ℚ := 50 + (if traffic > 10000 then 20 else if traffic > 5000 then 15
      else if traffic > 1000 then 10 else if traffic > 500 then 5 else 0)
    let keywords := jsNum d.organic_keywords_count 0
    let s2 := s1 + (if keywords > 1000 then 15 else if keywords > 500 then 10
      else if keywords > 100 then 5 else 0)
    let backlinks := jsNum d.backlinks_count 0
    let s3 := s2 + (if backlinks > 10000 then 15 else if backlinks > 5000 then 10
      else if backlinks > 1000 then 5 else 0)
    min 100 s3

/-- The domain extraction of part_000 line 1135:
`url.replace(/^https?:\/\//i, '').replace(/^www\./i, '').split('/')[0]`. -/
def extractDomainFromUrl (url : String) : String :=
  let u1 := if url.toLower.startsWith "https://" then url.drop 8
    else if url.toLower.startsWith "http://" then url.drop 7 else url
  let u2 := if u1.toLower.startsWith "www." then u1.drop 4 else u1
  (u2.splitOn "/").getD 0 ""

/-- `mapScoreToLabel` applied to a possibly-NaN value: every comparison with
NaN is false, yielding "POOR". -/
def mapScoreToLabelOpt (x : Option ℚ) : String :=
  match x with
  | some v => mapScoreToLabel v
  | none => "POOR"

/-- Enrichment step 1 (part_000 lines 1092–1129): the Google Places lookup.
Its two awaits sit directly in the outer `try`, so their failures propagate
(`.error`). -/
def enhanceStep1 (cb : Collab) (competitor : Entity) (specialty : String) :
    Except String Entity :=
  if competitor.name ≠ "" ∧ competitor.googleData = none ∧
      strTruthy competitor.placeId = false then
    if cb.googlePlacesApiKey ≠ "" ∧ cb.googlePlacesApiKey ≠ "your-google-places-api-key" then
      let searchName := if specialty ≠ ""
        then competitor.name ++ " " ++ specialty else competitor.name
      match cb.searchBusinessByName searchName (jsStr competitor.location "") with
      | .error err => .error err
      | .ok searchResult =>
        match searchResult with
        | some sr =>
          if strTruthy sr.place_id = true then
            match cb.getBusinessDetails (jsStr sr.place_id "") with
            | .error err => .error err
            | .ok details =>
              match details with
              | some d =>
                let gd : GoogleData := {
                  placeId := sr.place_id,
                  formattedAddress := (match d.formatted_address with
                    | some s => if s ≠ "" then some s else sr.formatted_address
                    | none => sr.formatted_address),
                  rating := some (jsNum d.rating 0),
                  userRatingsTotal := some (jsNum d.user_ratings_total 0),
                  website := some (jsStr d.website ""),
                  phoneNumber := some (jsStr d.formatted_phone_number "") }
                let e1 := { competitor with googleData := some gd }
                let e2 := if numTruthy e1.googleReviews = false ∧
                    numTruthy d.user_ratings_total = true
                  then { e1 with googleReviews := d.user_ratings_total } else e1
                let e3 := if strTruthy e2.location = false ∧
                    strTruthy d.formatted_address = true
                  then { e2 with location := d.formatted_address } else e2
                .ok e3
              | none => .ok competitor
          else .ok competitor
        | none => .ok competitor
    else .ok competitor
  else .ok competitor

/-- Enrichment step 2 (part_000 lines 1132–1161): the DataForSEO lookups.
The whole block sits in its own `try`, so failures only abort the remainder
of the step; assignments made before a failure persist.  (When
`getDomainOverview` yields `null`, `seoData` can still be absent at the
backlink merge; reading `.backlinks` of `undefined` then throws — caught by
the same `catch` — unless `total_backlinks` is truthy, in which case the
short-circuit `||` never reads it.) -/
def enhanceStep2 (cb : Collab) (e : Entity) : Entity :=
  if strTruthy e.url = true ∧ (e.seoData = none ∨ e.seoData = some {}) then
    let domain := extractDomainFromUrl (jsStr e.url "")
    match cb.getDomainOverview domain with
    | .error _ => e
    | .ok od =>
      let e1 := match od with
        | some d =>
          let sd1 : SeoData := { (e.seoData.getD {}) with
            traffic := some (jsNum d.organic_traffic_monthly 0),
            keywords := some (jsNum d.organic_keywords_count 0),
            backlinks := some (jsNum d.backlinks_count 0),
            seoStrength := some (calculateSeoStrength (some d)) }
          { e with seoData := some sd1 }
        | none => e
      match cb.getBacklinkData domain with
      | .error _ => e1
      | .ok ob =>
        match ob with
        | some b =>
          match e1.seoData with
          | some sd =>
            let sd2 : SeoData := { sd with
              backlinks := some (jsNum b.total_backlinks (jsNum sd.backlinks 0)),
              referringDomains := some (jsNum b.referring_domains 0) }
            { e1 with seoData := some sd2 }
          | none =>
            if numTruthy b.total_backlinks = true then
              let sd2 : SeoData := {
                backlinks := some (jsNum b.total_backlinks 0),
                referringDomains := some (jsNum b.referring_domains 0) }
              { e1 with seoData := some sd2 }
            else e1
        | none => e1
  else e

/-- Enrichment step 3 (part_000 lines 1164–1213): content analysis.  The
block has its own `try`, whose `catch` sets `hasAnalysis = false`; the AI
call has a further inner `try` that falls back to the keyword analysis. -/
def enhanceStep3 (cb : Collab) (e : Entity) (industry specialty : String) : Entity :=
  if strTruthy e.url = true ∧
      (numTruthy e.expertiseScore = false ∨ numTruthy e.authorityScore = false) then
    match cb.getWebsiteContent (jsStr e.url "") with
    | .error _ => { e with hasAnalysis := some false }
    | .ok pageContent =>
      if pageContent ≠ "" ∧ 100 < pageContent.length then
        let ai : Option AiAnalysis :=
          if cb.openaiApiKey ≠ "" then
            match cb.analyzeContentWithAI pageContent industry specialty with
            | .error _ => none
            | .ok a => a
          else none
        match ai with
        | some a =>
          { e with
            expertiseScore := some a.expertiseScore,
            authorityScore := some a.authorityScore,
            communicationScore :=
              some ((round ((a.contentQualityScore + a.trustScore) / 2) : ℤ) : ℚ),
            strengths := some a.strengths,
            weaknesses := some a.weaknesses,
            hasAiAnalysis := some true,
            position := some (determineMarketPosition a.expertiseScore a.authorityScore),
            hasAnalysis := some true }
        | none =>
          match cb.analyzeAuthorityIndex pageContent industry specialty with
          | .error _ => { e with hasAnalysis := some false }
          | .ok an =>
            { e with
              expertiseScore := some an.expertiseSignals,
              authorityScore := some an.digitalAuthority,
              communicationScore := some an.consistencyMarkers,
              position :=
                some (determineMarketPosition an.expertiseSignals an.digitalAuthority),
              hasAnalysis := some true }
      else e
  else e

/-- Enrichment step 4 (part_000 lines 1216–1239): synthesize plausible
scores when expertise/authority are still missing (or zero), biased by the
Google rating when available, then derive `position` from the synthesized
scores. -/
def enhanceStep4 (rng : ℕ → ℚ) (e : Entity) : Entity :=
  if numTruthy e.expertiseScore = false ∨ numTruthy e.authorityScore = false then
    let fb : Entity := { e with
      expertiseScore := some (40 + ((round (rng 0 * 40) : ℤ) : ℚ)),
      authorityScore := some (40 + ((round (rng 1 * 40) : ℤ) : ℚ)),
      communicationScore := some (40 + ((round (rng 2 * 30) : ℤ) : ℚ)),
      isEstimated := true }
    let e1 := match e.googleData with
      | some gd =>
        if numTruthy gd.rating = true then
          { e with
            expertiseScore := some (50 + ((round (rng 0 * 30) : ℤ) : ℚ)),
            authorityScore := some (50 + ((round (jsNum gd.rating 0 / 5 * 30) : ℤ) : ℚ)),
            communicationScore := some (45 + ((round (rng 1 * 25) : ℤ) : ℚ)),
            isEstimated := true }
        else fb
      | none => fb
    { e1 with position := some (determineMarketPosition
        (jsNum e1.expertiseScore 0) (jsNum e1.authorityScore 0)) }
  else e

/-- Enrichment step 5 (part_000 lines 1242–1254): always recompute
`credibilityScore = round(0.4e + 0.3a + 0.3c)` and the score labels.  A
missing `communicationScore` makes the JS sum NaN; `none` models that. -/
def enhanceStep5 (e : Entity) : Entity :=
  let credibility : Option ℚ :=
    match e.expertiseScore, e.authorityScore, e.communicationScore with
    | some ex, some au, some co =>
      some ((round (ex * (2/5) + au * (3/10) + co * (3/10)) : ℤ) : ℚ)
    | _, _, _ => none
  { e with
    credibilityScore := credibility,
    scoreLabels := some {
        overall := mapScoreToLabelOpt credibility,
        expertise := mapScoreToLabelOpt e.expertiseScore,
        audienceTrust := mapScoreToLabelOpt e.authorityScore,
        communication := mapScoreToLabelOpt e.communicationScore } }

/-- The body of `enhanceCompetitorData`'s outer `try`. -/
def enhanceCompetitorDataCore (cb : Collab) (rng : ℕ → ℚ) (competitor : Entity)
    (industry specialty : String) : Except String Entity :=
  match enhanceStep1 cb competitor specialty with
  | .error err => .error err
  | .ok e1 =>
    .ok (enhanceStep5 (enhanceStep4 rng (enhanceStep3 cb (enhanceStep2 cb e1)
      industry specialty)))

/-- `enhanceCompetitorData(competitor, industry, specialty)`: the outer
`catch` returns the original competitor, so the function is total. -/
def enhanceCompetitorData (cb : Collab) (rng : ℕ → ℚ) (competitor : Entity)
    (industry specialty : String) : Entity :=
  match enhanceCompetitorDataCore cb rng competitor industry specialty with
  | .ok e => e
  | .error _ => competitor

/-- `processCompetitors(competitors, industry, specialty)` (part_000 lines
1695–1710): enhance each competitor in order; the per-competitor `catch`
re-pushes the original competitor, and since `enhanceCompetitorData` never
throws the loop is a map.  `rngs i` is the slice of the global `Math.random`
stream consumed by the `i`-th call. -/
def processCompetitors (cb : Collab) (rngs : ℕ → ℕ → ℚ) (competitors : List Entity)
    (industry specialty : String) : List Entity :=
  competitors.enum.map (fun ic =>
    enhanceCompetitorData cb (rngs ic.1) ic.2 industry specialty)

/-!  ### C4 / C5: enrichment lemmas  -/

theorem numTruthy_some {x : Option ℚ} (h : numTruthy x = true) : ∃ v, x = some v := by
  rcases x with - | v
  · simp [numTruthy] at h
  · exact ⟨v, rfl⟩

theorem jsNum_some_zero (v : ℚ) : jsNum (some v) 0 = v := by
  rw [jsNum]
  split
  · next h => rw [h]
  · rfl

theorem enhanceStep1_fields (cb : Collab) (c : Entity) (spec : String) (e1 : Entity)
    (h : enhanceStep1 cb c spec = .ok e1) :
    e1.expertiseScore = c.expertiseScore ∧ e1.authorityScore = c.authorityScore ∧
    e1.communicationScore = c.communicationScore ∧ e1.position = c.position ∧
    e1.url = c.url := by
  rw [enhanceStep1] at h
  repeat'
    first
      | split at h
      | dsimp only [] at h
  all_goals first
    | exact Except.noConfusion h
    | (injection h with h; subst h; exact ⟨rfl, rfl, rfl, rfl, rfl⟩)

theorem enhanceStep2_fields (cb : Collab) (e : Entity) :
    (enhanceStep2 cb e).expertiseScore = e.expertiseScore ∧
    (enhanceStep2 cb e).authorityScore = e.authorityScore ∧
    (enhanceStep2 cb e).communicationScore = e.communicationScore ∧
    (enhanceStep2 cb e).position = e.position ∧
    (enhanceStep2 cb e).url = e.url := by
  rw [enhanceStep2]
  repeat'
    first
      | split
      | dsimp only []
  all_goals exact ⟨rfl, rfl, rfl, rfl, rfl⟩

theorem enhanceStep2_skip_url (cb : Collab) (e : Entity)
    (h : strTruthy e.url = false) : enhanceStep2 cb e = e := by
  rw [enhanceStep2, if_neg (by simp [h])]

theorem enhanceStep3_skip_scores (cb : Collab) (e : Entity) (ind spec : String)
    (he : numTruthy e.expertiseScore = true) (ha : numTruthy e.authorityScore = true) :
    enhanceStep3 cb e ind spec = e := by
  rw [enhanceStep3, if_neg (by simp [he, ha])]

theorem enhanceStep3_skip_url (cb : Collab) (e : Entity) (ind spec : String)
    (h : strTruthy e.url = false) : enhanceStep3 cb e ind spec = e := by
  rw [enhanceStep3, if_neg (by simp [h])]

theorem enhanceStep4_skip (rng : ℕ → ℚ) (e : Entity)
    (he : numTruthy e.expertiseScore = true) (ha : numTruthy e.authorityScore = true) :
    enhanceStep4 rng e = e := by
  rw [enhanceStep4, if_neg (by simp [he, ha])]

theorem enhanceStep4_scores (rng : ℕ → ℚ) (e : Entity) :
    ∃ ex au, (enhanceStep4 rng e).expertiseScore = some ex ∧
      (enhanceStep4 rng e).authorityScore = some au := by
  rw [enhanceStep4]
  split
  · repeat'
      first
        | split
        | dsimp only []
    all_goals exact ⟨_, _, rfl, rfl⟩
  · next hcond =>
    push_neg at hcond
    simp only [Bool.not_eq_false] at hcond
    obtain ⟨ex, hex⟩ := numTruthy_some hcond.1
    obtain ⟨au, hau⟩ := numTruthy_some hcond.2
    exact ⟨ex, au, hex, hau⟩

theorem enhanceStep4_position (rng : ℕ → ℚ) (e : Entity)
    (hcond : numTruthy e.expertiseScore = false ∨ numTruthy e.authorityScore = false) :
    ∃ ex au, (enhanceStep4 rng e).expertiseScore = some ex ∧
      (enhanceStep4 rng e).authorityScore = some au ∧
      (enhanceStep4 rng e).position = some (determineMarketPosition ex au) := by
  rw [enhanceStep4, if_pos hcond]
  repeat'
    first
      | split
      | dsimp only []
  all_goals exact ⟨_, _, rfl, rfl, by simp only [jsNum_some_zero]⟩

theorem enhanceStep5_fields (e : Entity) :
    (enhanceStep5 e).position = e.position ∧
    (enhanceStep5 e).expertiseScore = e.expertiseScore ∧
    (enhanceStep5 e).authorityScore = e.authorityScore ∧
    (enhanceStep5 e).communicationScore = e.communicationScore :=
  ⟨rfl, rfl, rfl, rfl⟩

theorem enhanceStep5_credibility (e : Entity) (ex au co : ℚ)
    (he : e.expertiseScore = some ex) (ha : e.authorityScore = some au)
    (hc : e.communicationScore = some co) :
    (enhanceStep5 e).credibilityScore =
      some ((round (ex * (2/5) + au * (3/10) + co * (3/10)) : ℤ) : ℚ) := by
  rw [enhanceStep5]
  simp [he, ha, hc]

set_option maxHeartbeats 1000000 in
/-- C4 (amended): on every non-throwing path, `enhanceCompetitorData`
recomputes `credibilityScore` as `round(0.4·expertise + 0.3·authority +
0.3·communication)` of the entity's **final** scores (and always ends with
numeric expertise/authority).  The `position`, however, is re-derived via the
§4.2 classifier only on the paths that (re)fill the scores — e.g. the
synthetic-score fallback — and is returned unchanged whenever the input
already carried truthy expertise and authority scores (in which case the
scores themselves are also unchanged). -/
theorem claim_C4_enrichment (cb : Collab) (rng : ℕ → ℚ) (competitor : Entity)
    (industry specialty : String) :
    (∀ e', enhanceCompetitorDataCore cb rng competitor industry specialty = .ok e' →
      (∃ ex au, e'.expertiseScore = some ex ∧ e'.authorityScore = some au) ∧
      (∀ ex au co, e'.expertiseScore = some ex → e'.authorityScore = some au →
        e'.communicationScore = some co →
        e'.credibilityScore =
          some ((round (ex * (2/5) + au * (3/10) + co * (3/10)) : ℤ) : ℚ))) ∧
    (numTruthy competitor.expertiseScore = true →
      numTruthy competitor.authorityScore = true →
      ∀ e', enhanceCompetitorDataCore cb rng competitor industry specialty = .ok e' →
        e'.position = competitor.position ∧
        e'.expertiseScore = competitor.expertiseScore ∧
        e'.authorityScore = competitor.authorityScore ∧
        e'.communicationScore = competitor.communicationScore) ∧
    (strTruthy competitor.url = false →
      (numTruthy competitor.expertiseScore = false ∨
        numTruthy competitor.authorityScore = false) →
      ∀ e', enhanceCompetitorDataCore cb rng competitor industry specialty = .ok e' →
        ∃ ex au, e'.expertiseScore = some ex ∧ e'.authorityScore = some au ∧
          e'.position = some (determineMarketPosition ex au)) := by
  refine ⟨?_, ?_, ?_⟩
  · intro e' h
    rw [enhanceCompetitorDataCore] at h
    rcases hs1 : enhanceStep1 cb competitor specialty with err | e1
    · rw [hs1] at h; exact absurd h (by simp)
    · rw [hs1] at h
      simp only [Except.ok.injEq] at h
      subst h
      set e4 := enhanceStep4 rng (enhanceStep3 cb (enhanceStep2 cb e1) industry specialty)
        with he4
      obtain ⟨ex, au, hex, hau⟩ := enhanceStep4_scores rng
        (enhanceStep3 cb (enhanceStep2 cb e1) industry specialty)
      constructor
      · exact ⟨ex, au, by rw [(enhanceStep5_fields e4).2.1]; exact hex,
          by rw [(enhanceStep5_fields e4).2.2.1]; exact hau⟩
      · intro ex' au' co' hex' hau' hco'
        rw [(enhanceStep5_fields e4).2.1] at hex'
        rw [(enhanceStep5_fields e4).2.2.1] at hau'
        rw [(enhanceStep5_fields e4).2.2.2] at hco'
        exact enhanceStep5_credibility e4 ex' au' co' hex' hau' hco'
  · intro htE htA e' h
    rw [enhanceCompetitorDataCore] at h
    rcases hs1 : enhanceStep1 cb competitor specialty with err | e1
    · rw [hs1] at h; exact absurd h (by simp)
    · rw [hs1] at h
      simp only [Except.ok.injEq] at h
      subst h
      obtain ⟨f1e, f1a, f1c, f1p, f1u⟩ := enhanceStep1_fields cb competitor specialty e1 hs1
      obtain ⟨f2e, f2a, f2c, f2p, f2u⟩ := enhanceStep2_fields cb e1
      have h3 : enhanceStep3 cb (enhanceStep2 cb e1) industry specialty =
          enhanceStep2 cb e1 :=
        enhanceStep3_skip_scores cb _ industry specialty
          (by rw [f2e, f1e]; exact htE) (by rw [f2a, f1a]; exact htA)
      have h4 : enhanceStep4 rng (enhanceStep2 cb e1) = enhanceStep2 cb e1 :=
        enhanceStep4_skip rng _ (by rw [f2e, f1e]; exact htE) (by rw [f2a, f1a]; exact htA)
      rw [h3, h4]
      refine ⟨?_, ?_, ?_, ?_⟩
      · rw [(enhanceStep5_fields _).1, f2p, f1p]
      · rw [(enhanceStep5_fields _).2.1, f2e, f1e]
      · rw [(enhanceStep5_fields _).2.2.1, f2a, f1a]
      · rw [(enhanceStep5_fields _).2.2.2, f2c, f1c]
  · intro hurl hmiss e' h
    rw [enhanceCompetitorDataCore] at h
    rcases hs1 : enhanceStep1 cb competitor specialty with err | e1
    · rw [hs1] at h; exact absurd h (by simp)
    · rw [hs1] at h
      simp only [Except.ok.injEq] at h
      subst h
      obtain ⟨f1e, f1a, f1c, f1p, f1u⟩ := enhanceStep1_fields cb competitor specialty e1 hs1
      have h2 : enhanceStep2 cb e1 = e1 :=
        enhanceStep2_skip_url cb e1 (by rw [f1u]; exact hurl)
      have h3 : enhanceStep3 cb e1 industry specialty = e1 :=
        enhanceStep3_skip_url cb e1 industry specialty (by rw [f1u]; exact hurl)
      rw [h2, h3]
      obtain ⟨ex, au, hex, hau, hpos⟩ := enhanceStep4_position rng e1
        (by rw [f1e, f1a]; exact hmiss)
      refine ⟨ex, au, ?_, ?_, ?_⟩
      · rw [(enhanceStep5_fields _).2.1]; exact hex
      · rw [(enhanceStep5_fields _).2.2.1]; exact hau
      · rw [(enhanceStep5_fields _).1]; exact hpos

/-- An entity that already carries truthy scores and a stored position:
the enrichment pipeline leaves its `position` untouched. -/
def entC4 : Entity :=
  { expertiseScore := some 80, authorityScore := some 80,
    communicationScore := some 80, position := some "LOW PROFILE" }

/-- C4, counterexample to the unamended claim: for an input entity with
truthy scores 80/80 and stored position "LOW PROFILE", the returned entity
keeps that position even though the §4.2 classifier on its final scores
gives "VERIFIED EXPERT" — `position` is *not* always re-derived. -/
theorem claim_C4_counterexample :
    (enhanceCompetitorData {} (fun _ => 0) entC4 "" "").expertiseScore = some 80 ∧
    (enhanceCompetitorData {} (fun _ => 0) entC4 "" "").authorityScore = some 80 ∧
    (enhanceCompetitorData {} (fun _ => 0) entC4 "" "").position = some "LOW PROFILE" ∧
    determineMarketPosition 80 80 = "VERIFIED EXPERT" ∧
    (some "LOW PROFILE" : Option String) ≠ some "VERIFIED EXPERT" := by
  have hb : baseThresholds "" = (70, 65) := by decide
  refine ⟨?_, ?_, ?_, ?_, by simp⟩
  · norm_num [enhanceCompetitorData, enhanceCompetitorDataCore, enhanceStep1,
      enhanceStep2, enhanceStep3, enhanceStep4, enhanceStep5, entC4, strTruthy,
      numTruthy, jsStr, jsNum, round_eq]
  · norm_num [enhanceCompetitorData, enhanceCompetitorDataCore, enhanceStep1,
      enhanceStep2, enhanceStep3, enhanceStep4, enhanceStep5, entC4, strTruthy,
      numTruthy, jsStr, jsNum, round_eq]
  · norm_num [enhanceCompetitorData, enhanceCompetitorDataCore, enhanceStep1,
      enhanceStep2, enhanceStep3, enhanceStep4, enhanceStep5, entC4, strTruthy,
      numTruthy, jsStr, jsNum, round_eq]
  · norm_num [determineMarketPosition, finalThresholds, hb, applyCurve, round_eq]

/-- C4, witness: at the concrete entity `entC4` the amended theorem's
truthy-scores conjunct yields the preserved position, and its credibility
conjunct yields `round(0.4·80 + 0.3·80 + 0.3·80) = 80`. -/
theorem claim_C4_enrichment_witness :
    (enhanceCompetitorData {} (fun _ => 0) entC4 "" "").position = some "LOW PROFILE" ∧
    (enhanceCompetitorData {} (fun _ => 0) entC4 "" "").credibilityScore = some 80 := by
  rcases hcore : enhanceCompetitorDataCore {} (fun _ => 0) entC4 "" "" with err | e'
  · simp [enhanceCompetitorDataCore, enhanceStep1, entC4, strTruthy] at hcore
  · have hbb := (claim_C4_enrichment {} (fun _ => 0) entC4 "" "").2.1
      (by norm_num [entC4, numTruthy]) (by norm_num [entC4, numTruthy]) e' hcore
    obtain ⟨hpos, hex, hau, hco⟩ := hbb
    have ha := (claim_C4_enrichment {} (fun _ => 0) entC4 "" "").1 e' hcore
    have hcred := ha.2 80 80 80 (by rw [hex]; rfl) (by rw [hau]; rfl) (by rw [hco]; rfl)
    rw [enhanceCompetitorData, hcore]
    refine ⟨by rw [hpos]; rfl, ?_⟩
    rw [hcred]
    norm_num [round_eq]

/-- C5: `enhanceCompetitorData` is total — whenever the enrichment body
throws (`enhanceCompetitorDataCore = .error`), the outer catch returns the
original competitor unmodified — and `processCompetitors` therefore maps the
input list one-to-one: the batch never shrinks. -/
theorem claim_C5_no_propagation (cb : Collab) (rngs : ℕ → ℕ → ℚ)
    (competitors : List Entity) (industry specialty : String) :
    (processCompetitors cb rngs competitors industry specialty).length =
      competitors.length ∧
    (∀ (rng : ℕ → ℚ) (c : Entity) (err : String),
      enhanceCompetitorDataCore cb rng c industry specialty = .error err →
      enhanceCompetitorData cb rng c industry specialty = c) := by
  constructor
  · rw [processCompetitors, List.length_map, List.enum_length]
  · intro rng c err h
    rw [enhanceCompetitorData, h]

/-- A collaborator whose Places search throws: the Places block of the
enrichment sits in the outer `try`, so the body as a whole throws. -/
def throwingCollab : Collab :=
  { googlePlacesApiKey := "k",
    searchBusinessByName := fun _ _ => .error "network down" }

/-- C5, witness: with a throwing Places collaborator the body throws on the
entity named "Acme", yet `enhanceCompetitorData` returns that entity
unchanged and the batch keeps its length. -/
theorem claim_C5_witness :
    (processCompetitors throwingCollab (fun _ _ => 0) [{ name := "Acme" }] "" "").length = 1 ∧
    enhanceCompetitorDataCore throwingCollab (fun _ => 0) { name := "Acme" } "" "" =
      .error "network down" ∧
    enhanceCompetitorData throwingCollab (fun _ => 0) { name := "Acme" } "" "" =
      { name := "Acme" } := by
  have herr : enhanceCompetitorDataCore throwingCollab (fun _ => 0)
      { name := "Acme" } "" "" = .error "network down" := by
    simp [enhanceCompetitorDataCore, enhanceStep1, throwingCollab, strTruthy]
  refine ⟨?_, herr, ?_⟩
  · exact (claim_C5_no_propagation throwingCollab (fun _ _ => 0)
      [{ name := "Acme" }] "" "").1
  · exact (claim_C5_no_propagation throwingCollab (fun _ _ => 0)
      [{ name := "Acme" }] "" "").2 (fun _ => 0) { name := "Acme" } "network down" herr

end AuthorityIndex
